import Mathlib

/-!
Verification development for the organic-typography repository.

The development shallowly embeds the three core components of the system:

* `SpatialIndex` (uniform grid point index with a query cache), embedded
  generically over a linear ordered field with a floor, so that the very same
  definitions can be run computably at `ℚ` (for concrete evaluations) and
  instantiated at `ℝ` inside the growth engine.
* `SemanticField` (semantic graph, collocation matrix, reading history and the
  pattern recognition pass), embedded over `ℝ`.
* `OrganicLayout` (the growth engine), embedded over `ℝ`, with the JavaScript
  `Math.random()` / `Date.now()` external calls modelled by an oracle of
  streams consumed through an explicit counter.

Modelling conventions, used consistently below:

* JavaScript numbers are modelled as exact field elements.  Every comparison
  of a Euclidean distance `Math.sqrt(dx*dx+dy*dy) <= r` that the source makes
  against a nonnegative threshold is embedded as the equivalent comparison of
  squares `dx^2+dy^2 <= r^2`, which keeps the spatial index computable at `ℚ`.
  Where the source uses the distance itself as a number (the engine's
  `getDistance`), `Real.sqrt` is used.
* A JavaScript `Map` is modelled as an association list: `set` replaces the
  value in place when the key is present (preserving insertion order, as JS
  `Map` does) and appends otherwise; `get` returns the first binding.
* Malformed-input guards of the source (missing `position`, non-number
  coordinates) are unrepresentable in the typed embedding; the corresponding
  early-return branches are noted in comments at their call sites.  The falsy
  check `item.id &&` is modelled as `item.id ≠ ""`.
-/

set_option maxRecDepth 8000

namespace OT

/-- 2D point, `{x, y}` in the source. -/
structure P2 (α : Type) where
  x : α
  y : α
deriving DecidableEq, Repr

/-- 2D direction vector, `{dx, dy}` in the source. -/
structure V2 (α : Type) where
  dx : α
  dy : α
deriving DecidableEq, Repr

/-- Squared Euclidean distance.  The source computes
`Math.sqrt(dx*dx + dy*dy)` and compares it with nonnegative thresholds; all
such comparisons are embedded through this square (an exact equivalence). -/
def dist2 {α : Type} [LinearOrderedField α] (p q : P2 α) : α :=
  (p.x - q.x) ^ 2 + (p.y - q.y) ^ 2

section AList

variable {κ ν : Type} [DecidableEq κ]

/-- `Map.get`: first binding of the key, if any. -/
def alistGet (m : List (κ × ν)) (k : κ) : Option ν :=
  (m.find? (fun e => decide (e.1 = k))).map (·.2)

/-- `Map.has`. -/
def alistHas (m : List (κ × ν)) (k : κ) : Bool :=
  (alistGet m k).isSome

/-- `Map.set`: replace in place when present (JS `Map` keeps the original
insertion position), append otherwise. -/
def alistSet (m : List (κ × ν)) (k : κ) (v : ν) : List (κ × ν) :=
  if alistHas m k then m.map (fun e => if e.1 = k then (k, v) else e)
  else m ++ [(k, v)]

end AList

/-- The inclusive integer range `[a, a+1, ..., b]` (the `for` loops
`for (let d = a; d <= b; d++)` of the source). -/
def intRange (a b : ℤ) : List ℤ :=
  (List.range (b + 1 - a).toNat).map (fun (n : ℕ) => a + (n : ℤ))

/-! ## SpatialIndex (src/unnamed/part_000, second file: class SpatialIndex) -/

/-- Items stored in a `SpatialIndex` expose an `id` and a `position`
(duck-typed in the source). -/
class SpatialItem (σ : Type) (α : outParam Type) where
  itemId : σ → String
  itemPos : σ → P2 α

export SpatialItem (itemId itemPos)

/-- State of `class SpatialIndex`.  `grid` maps a clamped cell key (the string
`"x,y"` of the source, modelled as the pair it encodes) to the cell's item
list; `queryCache` maps a cache key (the string
`x.toFixed(1),y.toFixed(1),r.toFixed(1)`, modelled as the triple of rounded
tenths it encodes) to a cached result list. -/
structure SpatialIndex (σ α : Type) where
  width : α
  height : α
  cellSize : α
  gridWidth : ℤ
  gridHeight : ℤ
  grid : List ((ℤ × ℤ) × List σ)
  itemCount : ℤ
  queryCache : List ((ℤ × ℤ × ℤ) × List σ)
deriving DecidableEq

namespace SpatialIndex

variable {σ α : Type} [LinearOrderedField α] [FloorRing α] [SpatialItem σ α]

/-- `x.toFixed(1)` as used in cache keys: the signed number of tenths, rounding
ties away from zero.  Only injectivity on equal inputs matters for the claims
below (two syntactically identical queries produce identical keys). -/
def tfix (a : α) : ℤ :=
  if 0 ≤ a then ⌊a * 10 + 1 / 2⌋ else -⌊-a * 10 + 1 / 2⌋

/-- The constructor.  `Number(w) || 800` maps `0` (and only `0`, for an actual
number) to the default, then `Math.max(1, ·)` applies. -/
def new (σ : Type) (width height cellSize : α) : SpatialIndex σ α :=
  let w := max 1 (if width = 0 then 800 else width)
  let h := max 1 (if height = 0 then 600 else height)
  let c := max 1 (if cellSize = 0 then 50 else cellSize)
  { width := w, height := h, cellSize := c
    gridWidth := ⌈w / c⌉, gridHeight := ⌈h / c⌉
    grid := [], itemCount := 0, queryCache := [] }

/-- `getGridKey`: floor-divide by the cell size, then clamp into
`[0, gridWidth) × [0, gridHeight)`.  (The non-number guard of the source is
unrepresentable here.) -/
def getGridKey (si : SpatialIndex σ α) (x y : α) : ℤ × ℤ :=
  let gridX := ⌊x / si.cellSize⌋
  let gridY := ⌊y / si.cellSize⌋
  (max 0 (min (si.gridWidth - 1) gridX), max 0 (min (si.gridHeight - 1) gridY))

/-- `findItemById`: scan cells in order, return the first item with the id. -/
def findItemById (si : SpatialIndex σ α) (anId : String) : Option σ :=
  si.grid.findSome? (fun cell => cell.2.find? (fun it => decide (itemId it = anId)))

/-- `remove(id)`: every cell drops all items carrying the id (the source
iterates each cell from the back, splicing every match), cells emptied by this
are deleted, `itemCount` decreases per removal, and the query cache is cleared
iff something was removed. -/
def remove (si : SpatialIndex σ α) (anId : String) : Bool × SpatialIndex σ α :=
  let removedCount : ℤ :=
    ((si.grid.map (fun cell =>
      (cell.2.filter (fun it => decide (itemId it = anId))).length)).sum : ℕ)
  let newGrid :=
    (si.grid.map (fun cell =>
      (cell.1, cell.2.filter (fun it => decide (itemId it ≠ anId))))).filter
      (fun cell => !cell.2.isEmpty)
  if removedCount > 0 then
    (true, { si with grid := newGrid, itemCount := si.itemCount - removedCount,
                     queryCache := [] })
  else (false, si)

/-- `insert(item)`: re-inserting a present id first removes the stale entry,
then the item is appended to its (clamped) cell and the query cache is
cleared.  The malformed-item guards (`!item`, non-number position) are
unrepresentable in the typed embedding, so the embedded `insert` always
returns `true`; the falsy id check `item.id &&` is `item.id ≠ ""`. -/
def insert (si : SpatialIndex σ α) (item : σ) : Bool × SpatialIndex σ α :=
  let si :=
    if itemId item ≠ "" ∧ (si.findItemById (itemId item)).isSome then
      (si.remove (itemId item)).2
    else si
  let key := si.getGridKey (itemPos item).x (itemPos item).y
  let cell := (alistGet si.grid key).getD []
  (true, { si with grid := alistSet si.grid key (cell ++ [item]),
                   itemCount := si.itemCount + 1, queryCache := [] })

/-- `query(position, radius)`: consult the cache, otherwise scan the
unclamped center cell's `±⌈radius/cellSize⌉` neighborhood, skipping
out-of-bounds cells, keeping items within the radius (embedded as the squared
comparison), then store the result in the cache when it holds fewer than 1000
entries.  A negative radius returns `[]` (the invalid-radius guard; a
malformed position is unrepresentable). -/
def query (si : SpatialIndex σ α) (pos : P2 α) (radius : α) :
    List σ × SpatialIndex σ α :=
  if radius < 0 then ([], si)
  else
    let cacheKey := (tfix pos.x, tfix pos.y, tfix radius)
    match alistGet si.queryCache cacheKey with
    | some cached => (cached, si)
    | none =>
      let gridRadius : ℤ := ⌈radius / si.cellSize⌉
      let centerX : ℤ := ⌊pos.x / si.cellSize⌋
      let centerY : ℤ := ⌊pos.y / si.cellSize⌋
      let results :=
        (intRange (-gridRadius) gridRadius).flatMap (fun dx =>
          (intRange (-gridRadius) gridRadius).flatMap (fun dy =>
            let gx := centerX + dx
            let gy := centerY + dy
            if gx < 0 ∨ gx ≥ si.gridWidth ∨ gy < 0 ∨ gy ≥ si.gridHeight then []
            else ((alistGet si.grid (gx, gy)).getD []).filter (fun it =>
              decide (dist2 (itemPos it) pos ≤ radius ^ 2))))
      let si' :=
        if si.queryCache.length < 1000 then
          { si with queryCache := alistSet si.queryCache cacheKey results }
        else si
      (results, si')

/-- `update(item)` = `remove` then `insert` (the `!item.id` falsy guard is
`item.id = ""`). -/
def update (si : SpatialIndex σ α) (item : σ) : Bool × SpatialIndex σ α :=
  if itemId item = "" then (false, si)
  else
    let si := (si.remove (itemId item)).2
    si.insert item

/-- `clear()`. -/
def clear (si : SpatialIndex σ α) : SpatialIndex σ α :=
  { si with grid := [], itemCount := 0, queryCache := [] }

/-- `findNearest(position, maxDistance)`: one radius query with radius
`min(maxDistance, max(cellSize, 50))`, then a linear scan keeping the first
strict improvement below the running minimum (initially `maxDistance`).  The
running minimum is tracked by its square, an exact equivalent since all
distances and the relevant thresholds are nonnegative whenever a comparison is
reached (a negative `maxDistance` makes the query return `[]`). -/
def findNearest (si : SpatialIndex σ α) (pos : P2 α) (maxDistance : α) :
    Option σ × SpatialIndex σ α :=
  let radius := min maxDistance (max si.cellSize 50)
  let qr := si.query pos radius
  let best := qr.1.foldl
    (fun acc it =>
      if dist2 (itemPos it) pos < acc.2 then (some it, dist2 (itemPos it) pos)
      else acc)
    ((none : Option σ), maxDistance ^ 2)
  (best.1, qr.2)

end SpatialIndex

/-! Concrete computable instantiation at `ℚ`, used to evaluate the spatial
index on concrete inputs. -/

/-- A bare indexed item (`{id, position}`). -/
structure QItem where
  id : String
  position : P2 ℚ
deriving DecidableEq, Repr

instance : SpatialItem QItem ℚ where
  itemId := QItem.id
  itemPos := QItem.position

/-- The index the growth engine constructs: `new SpatialIndex(800, 600, 50)`
(grid 16 × 12). -/
def qIndex0 : SpatialIndex QItem ℚ := SpatialIndex.new QItem 800 600 50

/-- An item whose position is inside the index bounds. -/
def aItem : QItem := ⟨"a", ⟨100, 10⟩⟩

/-- An item whose position lies well beyond the right edge of the
`800 × 600` index. -/
def wItem : QItem := ⟨"w", ⟨900, 10⟩⟩

/-- An in-bounds item used for the `findNearest` analysis. -/
def pItem : QItem := ⟨"p", ⟨200, 100⟩⟩

/-- An out-of-bounds item inserted inside a previously queried radius. -/
def nItem : QItem := ⟨"n", ⟨890, 10⟩⟩

/-! ## Shared data model of the growth engine (OrganicLayout.js)

`Node` and `Connection` are the records the engine creates.  JavaScript object
shapes differ between creation sites (seeds lack the semantic annotations);
fields absent from some shapes are modelled as `Option` with `none` for
"property not present", and the `x || 0` reads of the source become
`(·.getD 0)`. -/

/-- `readingDepth` annotation (`calculateReadingDepth`). -/
structure ReadingDepth where
  temporal : ℕ
  semantic : ℕ
  cognitive : ℝ
  cultural : ℝ

/-- `temporalLayer` annotation (`getCurrentTemporalLayer`). -/
structure TemporalLayer where
  generation : ℕ
  timestamp : ℕ
  readingPhase : String
  contextualDepth : ℕ

/-- A growth-engine node. -/
structure Node where
  id : String
  char : String
  position : P2 ℝ
  velocity : V2 ℝ
  energy : ℝ
  generation : ℕ
  textIndex : ℕ
  parent : Option String
  children : List String
  curvature : ℝ
  semanticResonance : Option ℝ := none
  collocationStrength : Option ℝ := none
  readingDepth : Option ReadingDepth := none
  temporalLayer : Option TemporalLayer := none
  branchType : Option String := none

instance : SpatialItem Node ℝ where
  itemId := Node.id
  itemPos := Node.position

/-- `interference` descriptor of a connection. -/
structure Interference where
  amplitude : ℝ
  frequency : ℝ
  phase : ℝ

/-- A directed connection record (`this.connections` entries); `from`/`to`
are reserved words in Lean and appear as `fromId`/`toId`. -/
structure Connection where
  fromId : String
  toId : String
  type : String
  semanticType : Option String := none
  curvature : ℝ
  interference : Option Interference := none
  resonance : Option ℝ := none

/-- External-call oracle: the `Math.random()` and `Date.now()` streams,
consumed through a call counter threaded explicitly through every function
that reaches an external call. -/
structure Oracle where
  rand : ℕ → ℝ
  now : ℕ → ℕ

/-! ## SemanticField (src/unnamed/part_000, first file) -/

/-- `this.cognitiveParams` (constants set in the constructor). -/
structure CognitiveParams where
  attentionSpan : ℕ
  semanticRadius : ℝ
  collocationStrength : ℝ
  interferenceThreshold : ℝ
  memoryDecay : ℝ

/-- An entry of `contextualLayers.cultural` (this map is never written by the
source, so no entry ever exists; the record shape is kept for the reads
`?.depth || 0`). -/
structure CulturalCtx where
  depth : ℝ
  historicalDepth : ℝ
  resonance : ℝ

/-- Body-memory record (`accessBodyMemory`), with the three nested
one-field objects flattened to their payloads. -/
structure BodyMemory where
  gestureVector : V2 ℝ
  visualPattern : List ℕ
  emotionalValence : ℝ

/-- Snapshot produced by `captureCurrentContext`. -/
structure CtxSnap where
  timestamp : ℕ
  nodeCount : ℕ
  connectionCount : ℕ
  readingDepth : ℕ
  averageLoad : ℝ
  attentionSpread : ℝ
  semanticActivation : ℝ

/-- An entry of `this.readingHistory` (pushed by `simulateReadingBody`).  The
`readingState` sub-object is flattened into the constructor; its
`temporalContext.recentHistory` field stores earlier entries, making the type
inductively nested.  `tcTemporalDistance` is
`Date.now() - (node.timestamp || Date.now())` (engine nodes carry no
`timestamp` property, so this is the difference of two clock reads). -/
inductive HistEntry : Type where
  | mk (timestamp : ℕ) (nodeId : String) (eyePosition : P2 ℝ)
      (attentionFocus : List Node) (cognitiveLoad : ℝ)
      (tcRecentHistory : List HistEntry) (tcTemporalDistance : ℤ)
      (bodyMemory : BodyMemory) (ctx : CtxSnap)

def HistEntry.timestamp : HistEntry → ℕ
  | .mk t _ _ _ _ _ _ _ _ => t

def HistEntry.nodeId : HistEntry → String
  | .mk _ n _ _ _ _ _ _ _ => n

def HistEntry.eyePosition : HistEntry → P2 ℝ
  | .mk _ _ p _ _ _ _ _ _ => p

def HistEntry.attentionFocus : HistEntry → List Node
  | .mk _ _ _ a _ _ _ _ _ => a

def HistEntry.cognitiveLoad : HistEntry → ℝ
  | .mk _ _ _ _ l _ _ _ _ => l

/-- State of `class SemanticField`.  The `temporal` and `personal` contextual
layers are never written nor read with content and are omitted; the
`cultural` layer is kept because `getCulturalDepth` reads it. -/
structure SemanticField where
  semanticGraph : List (String × List (String × ℝ))
  collocationMatrix : List (String × ℝ)
  readingHistory : List HistEntry
  culturalLayer : List (String × CulturalCtx)
  cognitiveParams : CognitiveParams

namespace SemanticField

/-- The `new SemanticField()` state. -/
noncomputable def init : SemanticField :=
  { semanticGraph := [], collocationMatrix := [], readingHistory := []
    culturalLayer := []
    cognitiveParams :=
      { attentionSpan := 7, semanticRadius := 120, collocationStrength := 8 / 10
        interferenceThreshold := 3 / 10, memoryDecay := 95 / 100 } }

/-- 32-bit signed wrap (`hash & hash` coerces to Int32 in JS). -/
def toInt32 (n : ℤ) : ℤ := (n + 2 ^ 31) % 2 ^ 32 - 2 ^ 31

/-- `simpleHash`: `hash = ((hash << 5) - hash) + charCode; hash &= hash`.
The shift coerces the running value to Int32 before scaling; the
subtraction/addition are exact (doubles cover this range); the `& hash`
wraps to Int32.  `charCodeAt` returns UTF-16 code units, which equal
`Char.toNat` for all characters appearing in this development. -/
def simpleHash (str : String) : ℤ :=
  str.data.foldl (fun hash c => toInt32 (toInt32 (hash * 2 ^ 5) - hash + (c.toNat : ℤ))) 0

/-- `getWordEmbedding`: 50 components `sin(hash*(i+1)) * cos(hash*(i+2))`. -/
noncomputable def getWordEmbedding (word : String) : List ℝ :=
  (List.range 50).map (fun (i : ℕ) =>
    Real.sin ((simpleHash word : ℝ) * ((i : ℝ) + 1)) *
      Real.cos ((simpleHash word : ℝ) * ((i : ℝ) + 2)))

/-- `calculateSemanticSimilarity`: cosine similarity over the common prefix.
(The null-vector guard of the source cannot fire: callers always pass the
50-component embeddings.) -/
noncomputable def calculateSemanticSimilarity (v1 v2 : List ℝ) : ℝ :=
  let n := min v1.length v2.length
  let dotProduct := ((List.range n).map (fun i => v1.getD i 0 * v2.getD i 0)).sum
  let norm1 := ((List.range n).map (fun i => v1.getD i 0 * v1.getD i 0)).sum
  let norm2 := ((List.range n).map (fun i => v2.getD i 0 * v2.getD i 0)).sum
  dotProduct / (Real.sqrt norm1 * Real.sqrt norm2)

/-- Separator class of the `tokenize` split regex `[\s、。！？]+` (the `\s`
class is restricted to the whitespace characters that can actually occur in
this development). -/
def isSepChar (c : Char) : Bool :=
  c = ' ' ∨ c = '\t' ∨ c = '\n' ∨ c = '\r' ∨ c = '、' ∨ c = '。' ∨ c = '！' ∨ c = '？'

/-- Worker for `tokenize`: split on separator runs, dropping empty pieces
(the `filter(word => word.length > 0)`). -/
def tokenizeGo : List Char → List Char → List String
  | [], cur => if cur.isEmpty then [] else [String.mk cur.reverse]
  | c :: rest, cur =>
    if isSepChar c then
      if cur.isEmpty then tokenizeGo rest []
      else String.mk cur.reverse :: tokenizeGo rest []
    else tokenizeGo rest (c :: cur)

/-- `tokenize(text)`. -/
def tokenize (text : List Char) : List String := tokenizeGo text []

/-- `computeSemanticVectors`. -/
noncomputable def computeSemanticVectors (words : List String) : List (List ℝ) :=
  words.map (fun word => getWordEmbedding word)

/-- `addSemanticConnection`: ensure the outer entry exists, then set the
directed edge `word1 → word2` (and only that direction). -/
def addSemanticConnection (sf : SemanticField) (word1 word2 : String) (strength : ℝ) :
    SemanticField :=
  let g := if alistHas sf.semanticGraph word1 then sf.semanticGraph
           else alistSet sf.semanticGraph word1 []
  { sf with semanticGraph :=
      alistSet g word1 (alistSet ((alistGet g word1).getD []) word2 strength) }

/-- `getSemanticDistance`: `1 - strength` for a recorded directed pair,
otherwise the default distance `1`. -/
def getSemanticDistance (sf : SemanticField) (word1 word2 : String) : ℝ :=
  match alistGet sf.semanticGraph word1 with
  | some connections =>
    match alistGet connections word2 with
    | some strength => 1 - strength
    | none => 1
  | none => 1

/-- `getCollocationStrength`: keyed by the string `word1_word2`. -/
def getCollocationStrength (sf : SemanticField) (word1 word2 : String) : ℝ :=
  (alistGet sf.collocationMatrix (word1 ++ "_" ++ word2)).getD 0

/-- `detectCollocationPatterns`: each observed bigram adds `0.1` to its
accumulated strength (never normalized). -/
noncomputable def detectCollocationPatterns (sf : SemanticField) (words : List String) : SemanticField :=
  { sf with collocationMatrix :=
      (List.range (words.length - 1)).foldl (fun m i =>
        let bigram := words.getD i "" ++ "_" ++ words.getD (i + 1) ""
        alistSet m bigram ((alistGet m bigram).getD 0 + 1 / 10)) sf.collocationMatrix }

/-- The ordered list of index pairs `(i, j)` with `i < j < n` visited by the
double loop of `analyzeSemanticStructure`. -/
def pairList (n : ℕ) : List (ℕ × ℕ) :=
  (List.range n).flatMap (fun i =>
    (List.range (n - (i + 1))).map (fun d => (i, i + 1 + d)))

/-- The inner-loop body of `analyzeSemanticStructure`: one word pair. -/
noncomputable def analyzePairStep (words : List String) (semanticVectors : List (List ℝ))
    (acc : SemanticField) (p : ℕ × ℕ) : SemanticField :=
  open Classical in
  let similarity := calculateSemanticSimilarity
    (semanticVectors.getD p.1 []) (semanticVectors.getD p.2 [])
  if similarity > 3 / 10 then
    addSemanticConnection acc (words.getD p.1 "") (words.getD p.2 "") similarity
  else acc

/-- `analyzeSemanticStructure`: record a semantic connection for every word
pair with cosine similarity above `0.3`, then accumulate bigram collocation
statistics.  (The source returns `this.semanticGraph`; callers use only the
side effect, which here is the returned state.) -/
noncomputable def analyzeSemanticStructure (sf : SemanticField) (text : List Char) :
    SemanticField :=
  let words := tokenize text
  let semanticVectors := computeSemanticVectors words
  let sf1 := (pairList words.length).foldl (analyzePairStep words semanticVectors) sf
  detectCollocationPatterns sf1 words

/-- Force triple returned by `generateInterferencePattern` /
`calculateSemanticForce`. -/
structure ForceTriple where
  attraction : ℝ
  repulsion : ℝ
  lateral : ℝ

/-- `generateInterferencePattern`.  When `semanticDist = 0`, JS produces
`Infinity`/`NaN` here (the ratio is `x/0`); the `ℝ` embedding yields `0` for
the ratio instead.  No claim settled in this file depends on the numeric
value of that branch (the downstream growth direction is renormalized through
a guard either way). -/
noncomputable def generateInterferencePattern (spatialDist semanticDist
    collocationStrength : ℝ) : ForceTriple :=
  let interferenceRatio := spatialDist / semanticDist
  { attraction := max 0 (collocationStrength - interferenceRatio * (3 / 10))
    repulsion := max 0 ((interferenceRatio - 1) * (5 / 10))
    lateral := Real.sin (interferenceRatio * Real.pi) * (2 / 10) }

/-- `calculateSemanticForce` (the `!node || !node.char` guards reduce to the
falsy-empty-string check on the labels in the typed embedding). -/
noncomputable def calculateSemanticForce (sf : SemanticField) (sourceNode targetNode : Node)
    (spatialDistance : ℝ) : ForceTriple :=
  if sourceNode.char = "" ∨ targetNode.char = "" then
    { attraction := 0, repulsion := 0, lateral := 0 }
  else
    let semanticDistance := sf.getSemanticDistance sourceNode.char targetNode.char
    let collocationStrength := sf.getCollocationStrength sourceNode.char targetNode.char
    generateInterferencePattern spatialDistance semanticDistance collocationStrength

/-- `getDistance`-style Euclidean distance, as the scalar the SemanticField
and engine use (`Math.sqrt(dx*dx+dy*dy)`). -/
noncomputable def edist (pos1 pos2 : P2 ℝ) : ℝ := Real.sqrt (dist2 pos1 pos2)

/-- JavaScript `%` on nonnegative numbers (all the source's real-valued `%`
operands are nonnegative): `a - b * ⌊a / b⌋`. -/
noncomputable def jsMod (a b : ℝ) : ℝ := a - b * ⌊a / b⌋

/-- `generateSensationField`: 24 points of a wavy circle around the
midpoint. -/
noncomputable def generateSensationField (pos1 pos2 : P2 ℝ) (intensity : ℝ) :
    List (P2 ℝ) :=
  let midpoint : P2 ℝ := ⟨(pos1.x + pos2.x) / 2, (pos1.y + pos2.y) / 2⟩
  let fieldRadius := intensity * 30
  (List.range 24).map (fun k =>
    let angle := (k : ℝ) * (Real.pi / 12)
    let r := fieldRadius * (8 / 10 + 2 / 10 * Real.sin (angle * 3))
    ⟨midpoint.x + Real.cos angle * r, midpoint.y + Real.sin angle * r⟩)

/-- `getWordFrequency`: `simpleHash(word) % 100 / 100` with JS truncated
integer remainder (sign of the dividend). -/
noncomputable def getWordFrequency (word : String) : ℝ :=
  ((Int.tmod (simpleHash word) 100 : ℤ) : ℝ) / 100

/-- Resonance pattern between two nodes (`calculateResonancePattern`). -/
structure ResonancePattern where
  frequency : ℝ
  amplitude : ℝ
  phase : ℝ

/-- `calculateResonancePattern`. -/
noncomputable def calculateResonancePattern (node1 node2 : Node) : ResonancePattern :=
  let frequency1 := getWordFrequency node1.char
  let frequency2 := getWordFrequency node2.char
  { frequency := |frequency1 - frequency2|
    amplitude := min frequency1 frequency2
    phase := jsMod (frequency1 + frequency2) (Real.pi * 2) }

/-- A collocation sensation field entry
(`visualizeCollocationSensation` output, `type: 'collocation_field'`). -/
structure CollocationField where
  intensity : ℝ
  geometry : List (P2 ℝ)
  resonance : ResonancePattern

/-- `visualizeCollocationSensation`: one sensation field per neighbor whose
collocation strength with the node exceeds `0.5`. -/
noncomputable def visualizeCollocationSensation (sf : SemanticField) (node : Node)
    (nearbyNodes : List Node) : List CollocationField :=
  nearbyNodes.flatMap (fun nearby =>
    let collocationValue := sf.getCollocationStrength node.char nearby.char
    if collocationValue > 5 / 10 then
      [{ intensity := collocationValue
         geometry := generateSensationField node.position nearby.position collocationValue
         resonance := calculateResonancePattern node nearby }]
    else [])

/-- `calculateAttentionFocus`: nodes within the semantic radius, sorted by
distance (a stable sort, as ES2019 `Array.sort`), truncated to the attention
span.  The distance comparison is embedded through squares. -/
noncomputable def calculateAttentionFocus (sf : SemanticField) (currentNode : Node)
    (allNodes : List Node) : List Node :=
  ((allNodes.filter (fun node =>
      decide (dist2 node.position currentNode.position <
        sf.cognitiveParams.semanticRadius ^ 2))).insertionSort
    (fun a b => dist2 a.position currentNode.position ≤
      dist2 b.position currentNode.position)).take sf.cognitiveParams.attentionSpan

/-- `getSemanticComplexity`: number of recorded semantic neighbors, `1` when
the word is unknown. -/
def getSemanticComplexity (sf : SemanticField) (word : String) : ℕ :=
  match alistGet sf.semanticGraph word with
  | some connections => connections.length
  | none => 1

/-- `getContextualLoad`. -/
noncomputable def getContextualLoad (sf : SemanticField) : ℝ :=
  sf.readingHistory.length * (1 / 100)

/-- `calculateCognitiveLoad`: mean of label length, semantic complexity and
contextual load. -/
noncomputable def calculateCognitiveLoad (sf : SemanticField) (node : Node) : ℝ :=
  let wordComplexity := (node.char.length : ℝ)
  let semanticComplexity := (sf.getSemanticComplexity node.char : ℝ)
  let contextualLoad := sf.getContextualLoad
  (wordComplexity + semanticComplexity + contextualLoad) / 3

/-- `calculateGestureVector`. -/
noncomputable def calculateGestureVector (word : String) : V2 ℝ :=
  ⟨Real.cos (simpleHash word : ℝ) * (3 / 10), Real.sin (simpleHash word : ℝ) * (3 / 10)⟩

/-- `getVisualPattern`. -/
def getVisualPattern (word : String) : List ℕ :=
  word.data.map (fun c => c.toNat % 10)

/-- `getEmotionalValence`. -/
noncomputable def getEmotionalValence (word : String) : ℝ :=
  ((Int.tmod (simpleHash word) 200 - 100 : ℤ) : ℝ) / 100

/-- `accessBodyMemory` (motor/sensory/emotional sub-objects flattened). -/
noncomputable def accessBodyMemory (word : String) : BodyMemory :=
  { gestureVector := calculateGestureVector word
    visualPattern := getVisualPattern word
    emotionalValence := getEmotionalValence word }

/-- `calculateAttentionVector`: `0.01` of the focus centroid (an
absolute-position vector, as in the source). -/
noncomputable def calculateAttentionVector (focusNodes : List Node) : V2 ℝ :=
  if focusNodes.isEmpty then ⟨0, 0⟩
  else
    let centerX := (focusNodes.map (fun node => node.position.x)).sum / focusNodes.length
    let centerY := (focusNodes.map (fun node => node.position.y)).sum / focusNodes.length
    ⟨centerX * (1 / 100), centerY * (1 / 100)⟩

/-- `calculateMemoryVector`. -/
def calculateMemoryVector (bodyMemory : BodyMemory) : V2 ℝ :=
  bodyMemory.gestureVector

/-- `calculateEmbodiedDirection` on the flattened reading state. -/
noncomputable def calculateEmbodiedDirection (attentionFocus : List Node)
    (bodyMemory : BodyMemory) (cognitiveLoad : ℝ) : V2 ℝ :=
  let attentionVector := calculateAttentionVector attentionFocus
  let memoryVector := calculateMemoryVector bodyMemory
  let loadFactor := 1 - cognitiveLoad * (5 / 10)
  ⟨(attentionVector.dx * (6 / 10) + memoryVector.dx * (4 / 10)) * loadFactor,
   (attentionVector.dy * (6 / 10) + memoryVector.dy * (4 / 10)) * loadFactor⟩

/-- `calculateAverageCognitiveLoad`. -/
noncomputable def calculateAverageCognitiveLoad (sf : SemanticField) : ℝ :=
  if sf.readingHistory.isEmpty then 0
  else (sf.readingHistory.map (fun entry => entry.cognitiveLoad)).sum /
    sf.readingHistory.length

/-- `calculateAttentionSpread`. -/
noncomputable def calculateAttentionSpread (sf : SemanticField) : ℝ :=
  if sf.readingHistory.isEmpty then 0
  else (sf.readingHistory.map (fun entry => (entry.attentionFocus.length : ℝ))).sum /
    sf.readingHistory.length

/-- `calculateSemanticActivation`. -/
noncomputable def calculateSemanticActivation (sf : SemanticField) : ℝ :=
  (sf.semanticGraph.length : ℝ) / max 1 (sf.readingHistory.length : ℝ)

/-- `captureCurrentContext` (consumes one `Date.now()`). -/
noncomputable def captureCurrentContext (o : Oracle) (sf : SemanticField) (ctr : ℕ) :
    CtxSnap × ℕ :=
  ({ timestamp := o.now ctr
     nodeCount := sf.semanticGraph.length
     connectionCount := sf.collocationMatrix.length
     readingDepth := sf.readingHistory.length
     averageLoad := sf.calculateAverageCognitiveLoad
     attentionSpread := sf.calculateAttentionSpread
     semanticActivation := sf.calculateSemanticActivation }, ctr + 1)

/-- `simulateReadingBody`: compute the embodied direction and push a reading
history entry.  Consumes four `Date.now()` reads in source evaluation order:
two inside `getTemporalContext`, one for the entry timestamp, one inside
`captureCurrentContext`.  The `!currentNode || !position || !char` guard
reduces to the falsy label check. -/
noncomputable def simulateReadingBody (o : Oracle) (sf : SemanticField)
    (currentNode : Node) (textNodes : List Node) (ctr : ℕ) :
    V2 ℝ × SemanticField × ℕ :=
  if currentNode.char = "" then (⟨0, 0⟩, sf, ctr)
  else
    let attentionFocus := sf.calculateAttentionFocus currentNode textNodes
    let cognitiveLoad := sf.calculateCognitiveLoad currentNode
    -- getTemporalContext: recentHistory = slice(-10), two clock reads
    let tcRecent := sf.readingHistory.drop (sf.readingHistory.length - 10)
    let tcDistance : ℤ := (o.now ctr : ℤ) - (o.now (ctr + 1) : ℤ)
    let bodyMemory := accessBodyMemory currentNode.char
    let embodiedDirection := calculateEmbodiedDirection attentionFocus bodyMemory cognitiveLoad
    let entryTimestamp := o.now (ctr + 2)
    let ctxPair := captureCurrentContext o sf (ctr + 3)
    let entry : HistEntry := .mk entryTimestamp currentNode.id currentNode.position
      attentionFocus cognitiveLoad tcRecent tcDistance bodyMemory ctxPair.1
    (embodiedDirection, { sf with readingHistory := sf.readingHistory ++ [entry] },
      ctxPair.2)

/-- `expandCluster`: greedy collection of all unvisited nodes whose semantic
similarity to the seed exceeds `0.7`; members are marked visited as they are
collected. -/
noncomputable def expandCluster (sf : SemanticField) (seedNode : Node) (allNodes : List Node)
    (visited : List String) : List Node × List String :=
  allNodes.foldl (fun acc node =>
    if node.id ∈ acc.2 then acc
    else if 1 - sf.getSemanticDistance seedNode.char node.char > 7 / 10 then
      (acc.1 ++ [node], acc.2 ++ [node.id])
    else acc) ([seedNode], visited ++ [seedNode.id])

/-- `identifySemanticClusters`: greedy expansion from each unvisited seed;
clusters of size `≤ 2` are discarded but their members stay visited. -/
noncomputable def identifySemanticClusters (sf : SemanticField) (nodes : List Node) :
    List (List Node) :=
  (nodes.foldl (fun acc node =>
    if node.id ∈ acc.2 then acc
    else
      let p := expandCluster sf node nodes acc.2
      if p.1.length > 2 then (acc.1 ++ [p.1], p.2) else (acc.1, p.2))
    (([] : List (List Node)), ([] : List String))).1

/-- `identifySemanticBridges`: connections whose endpoint labels — here the
endpoint id strings, since connections store ids, not node objects — have
semantic distance in `(0.8, 0.95)`.  The `typeof conn.from === 'object'`
branch never fires for this engine's connections. -/
noncomputable def identifySemanticBridges (sf : SemanticField) (connections : List Connection) :
    List Connection :=
  connections.filter (fun conn =>
    if conn.fromId = "" ∨ conn.toId = "" then false
    else decide (sf.getSemanticDistance conn.fromId conn.toId > 8 / 10 ∧
      sf.getSemanticDistance conn.fromId conn.toId < 95 / 100))

/-- `Math.atan2(y, x)`, with the same `(-π, π]` principal range and
`atan2(0, 0) = 0`. -/
noncomputable def atan2 (y x : ℝ) : ℝ := Complex.arg { re := x, im := y }

/-- The while-loop normalization of an angle difference into `[-π, π]`.  The
source loops, but its inputs are differences of two principal `atan2` values,
hence in `(-2π, 2π)`, where a single adjustment suffices. -/
noncomputable def normalizeAngleDiff (d : ℝ) : ℝ :=
  if d > Real.pi then d - 2 * Real.pi
  else if d < -Real.pi then d + 2 * Real.pi
  else d

/-- The accumulated `totalAngle` of `isSpirialPattern`: for each interior
point, the absolute normalized turning between the incoming and outgoing
segments; a vertex adjacent to a degenerate (`|dx|,|dy| < 0.001`) segment
contributes nothing (the source `continue`s). -/
noncomputable def spiralTotalAngle (positions : List (P2 ℝ)) : ℝ :=
  ((List.range (positions.length - 2)).map (fun i' =>
    let i := i' + 1
    let prev := positions.getD (i - 1) ⟨0, 0⟩
    let mid := positions.getD i ⟨0, 0⟩
    let next := positions.getD (i + 1) ⟨0, 0⟩
    let dx1 := mid.x - prev.x
    let dy1 := mid.y - prev.y
    let dx2 := next.x - mid.x
    let dy2 := next.y - mid.y
    if (|dx1| < 1 / 1000 ∧ |dy1| < 1 / 1000) ∨ (|dx2| < 1 / 1000 ∧ |dy2| < 1 / 1000) then 0
    else |normalizeAngleDiff (atan2 dy2 dx2 - atan2 dy1 dx1)|)).sum

/-- `isSpirialPattern` on the eye positions of a history window (the map to
positions is total in the typed embedding, so the `filter` over defined
coordinates and the `{x:0,y:0}` default are identities; the two
short-length guards coincide). -/
noncomputable def isSpirialPatternPositions (positions : List (P2 ℝ)) : Prop :=
  if positions.length < 3 then False
  else spiralTotalAngle positions > Real.pi

/-- `isSpirialPattern(sequence)`. -/
noncomputable def isSpirialPattern (sequence : List HistEntry) : Prop :=
  isSpirialPatternPositions (sequence.map HistEntry.eyePosition)

/-- `identifyReadingSpirals`: all 5-entry sliding windows of the reading
history classified as spirals. -/
noncomputable def identifyReadingSpirals (sf : SemanticField) : List (List HistEntry) :=
  if sf.readingHistory.length < 5 then []
  else
    open Classical in
    ((List.range (sf.readingHistory.length - 4)).map (fun i =>
      (sf.readingHistory.drop i).take 5)).filter
      (fun sequence => decide (isSpirialPattern sequence))

/-- One fractal-analysis record (`analyzeFractalAtScale`). -/
structure FractalPattern where
  scale : ℝ
  selfSimilarity : ℝ
  gridPattern : List ((ℤ × ℤ) × List Node)

/-- `calculateSelfSimilarity`: mean pairwise density similarity of the grid
cells. -/
noncomputable def calculateSelfSimilarity (grid : List ((ℤ × ℤ) × List Node)) : ℝ :=
  let densities := grid.map (fun cell => (cell.2.length : ℝ))
  if densities.length < 4 then 0
  else
    let comparisons := (pairList densities.length).map (fun p =>
      1 - |densities.getD p.1 0 - densities.getD p.2 0| /
        max (densities.getD p.1 0) (max (densities.getD p.2 0) 1))
    if comparisons.length = 0 then 0 else comparisons.sum / comparisons.length

/-- `analyzeFractalAtScale`: bucket the nodes into a grid of the given cell
size (in insertion order of first touch, as a JS `Map`). -/
noncomputable def analyzeFractalAtScale (nodes : List Node) (scale : ℝ) : FractalPattern :=
  let grid := nodes.foldl (fun g node =>
    let key := (⌊node.position.x / scale⌋, ⌊node.position.y / scale⌋)
    alistSet g key ((alistGet g key).getD [] ++ [node])) ([] : List ((ℤ × ℤ) × List Node))
  { scale := scale, selfSimilarity := calculateSelfSimilarity grid, gridPattern := grid }

/-- `identifyFractalPatterns`: the four scales, keeping analyses with
self-similarity above `0.6`. -/
noncomputable def identifyFractalPatterns (nodes : List Node) : List FractalPattern :=
  open Classical in
  ([10, 30, 90, 270] : List ℝ).flatMap (fun scale =>
    let pattern := analyzeFractalAtScale nodes scale
    if pattern.selfSimilarity > 6 / 10 then [pattern] else [])

/-- Result of `recognizeEmergentPatterns`. -/
structure EmergentPatterns where
  clusters : List (List Node)
  bridges : List Connection
  spirals : List (List HistEntry)
  fractals : List FractalPattern

/-- `recognizeEmergentPatterns`. -/
noncomputable def recognizeEmergentPatterns (sf : SemanticField) (nodes : List Node)
    (connections : List Connection) : EmergentPatterns :=
  { clusters := sf.identifySemanticClusters nodes
    bridges := sf.identifySemanticBridges connections
    spirals := sf.identifyReadingSpirals
    fractals := identifyFractalPatterns nodes }

/-- `analyzeReadingMetrics` result. -/
structure ReadingMetrics where
  averageReadingSpeed : ℝ
  attentionDistribution : List (String × ℕ)
  semanticCohesion : ℝ

/-- `calculateReadingSpeed`.  For coinciding first/last timestamps JS yields
`Infinity`; the `ℝ` embedding yields `0` (the value is decorative and is
consumed by no claim). -/
noncomputable def calculateReadingSpeed (sf : SemanticField) : ℝ :=
  if sf.readingHistory.length < 2 then 0
  else
    let timeSpan : ℝ :=
      ((sf.readingHistory.getLast?.map HistEntry.timestamp).getD 0 : ℕ) -
        ((sf.readingHistory.head?.map HistEntry.timestamp).getD 0 : ℕ)
    (sf.readingHistory.length : ℝ) / (timeSpan / 1000)

/-- `analyzeAttentionDistribution`: per-node counts over all attention
focuses in the history. -/
def analyzeAttentionDistribution (sf : SemanticField) : List (String × ℕ) :=
  sf.readingHistory.foldl (fun dist entry =>
    entry.attentionFocus.foldl (fun d node =>
      alistSet d node.id ((alistGet d node.id).getD 0 + 1)) dist) []

/-- `calculateSemanticCohesion`: mean similarity of consecutive history
entries' `node` fields — these hold node ids, which is what the source passes
to `getSemanticDistance`. -/
noncomputable def calculateSemanticCohesion (sf : SemanticField) : ℝ :=
  let n := sf.readingHistory.length - 1
  if n = 0 then 0
  else
    ((List.range n).map (fun i =>
      1 - sf.getSemanticDistance
        ((sf.readingHistory.getD i (.mk 0 "" ⟨0, 0⟩ [] 0 [] 0
          ⟨⟨0, 0⟩, [], 0⟩ ⟨0, 0, 0, 0, 0, 0, 0⟩)).nodeId)
        ((sf.readingHistory.getD (i + 1) (.mk 0 "" ⟨0, 0⟩ [] 0 [] 0
          ⟨⟨0, 0⟩, [], 0⟩ ⟨0, 0, 0, 0, 0, 0, 0⟩)).nodeId))).sum / n

/-- `analyzeReadingMetrics`. -/
noncomputable def analyzeReadingMetrics (sf : SemanticField) : ReadingMetrics :=
  { averageReadingSpeed := sf.calculateReadingSpeed
    attentionDistribution := sf.analyzeAttentionDistribution
    semanticCohesion := sf.calculateSemanticCohesion }

/-- A point of `visualizeReadingTrace`. -/
structure TracePoint where
  position : P2 ℝ
  timestamp : ℕ
  cognitiveLoad : ℝ
  attention : ℕ

/-- `visualizeReadingTrace`. -/
def visualizeReadingTrace (sf : SemanticField) : List TracePoint :=
  sf.readingHistory.map (fun entry =>
    { position := entry.eyePosition, timestamp := entry.timestamp
      cognitiveLoad := entry.cognitiveLoad, attention := entry.attentionFocus.length })

/-- An emergent "moment" (`captureEmergentMoments`): a cluster formation or
a semantic leap. -/
structure EmergentMoment where
  type : String
  timestamp : ℕ
  clusterElements : List Node := []
  leapConnection : Option Connection := none
  significance : ℝ

/-- `captureEmergentMoments`.  A bridge's `significance` evaluates
`getSemanticDistance(bridge.from.char, bridge.to.char)` where `from`/`to`
are id strings: `.char` of a string is `undefined`, `Map.get(undefined)`
misses (no `undefined` key is ever inserted), so the default distance `1`
results.  Each pushed moment consumes one `Date.now()`. -/
noncomputable def captureEmergentMoments (o : Oracle) (patterns : EmergentPatterns)
    (ctr : ℕ) : List EmergentMoment × ℕ :=
  let afterClusters := patterns.clusters.foldl (fun acc cluster =>
    (acc.1 ++ [{ type := "cluster_formation", timestamp := o.now acc.2
                 clusterElements := cluster
                 significance := (cluster.length : ℝ) / 10 }], acc.2 + 1))
    (([] : List EmergentMoment), ctr)
  patterns.bridges.foldl (fun acc bridge =>
    (acc.1 ++ [{ type := "semantic_leap", timestamp := o.now acc.2
                 leapConnection := some bridge
                 significance := 1 }], acc.2 + 1)) afterClusters

/-- `mapLanguageCognitionInterface` (static strings plus two graph sizes). -/
structure LanguageCognitionInterface where
  phonological : String
  morphological : String
  syntacticPatterns : String
  semanticActivation : ℕ
  conceptualConnections : ℕ
  pragmaticInferences : ℕ

/-- `mapLanguageCognitionInterface`. -/
def mapLanguageCognitionInterface (sf : SemanticField) : LanguageCognitionInterface :=
  { phonological := "simplified_phonological_analysis"
    morphological := "simplified_morphological_analysis"
    syntacticPatterns := "simplified_syntactic_analysis"
    semanticActivation := sf.semanticGraph.length
    conceptualConnections := sf.semanticGraph.length
    pragmaticInferences := sf.readingHistory.length }

/-- A personal temporal layer (`generateTemporalFolding`). -/
structure TemporalFoldEntry where
  depth : ℕ
  content : HistEntry
  decay : ℝ

/-- `generateTemporalFolding`.  The cultural map is never written, so
`culturalTime` is always empty here exactly as at runtime; `universalTime`
is three static strings, folded into one tag. -/
noncomputable def generateTemporalFolding (sf : SemanticField) :
    List TemporalFoldEntry × List (String × ℝ × ℝ) × String :=
  let personalTime := (List.range sf.readingHistory.length).map (fun index =>
    { depth := index
      content := sf.readingHistory.getD index (.mk 0 "" ⟨0, 0⟩ [] 0 [] 0
        ⟨⟨0, 0⟩, [], 0⟩ ⟨0, 0, 0, 0, 0, 0, 0⟩)
      decay := sf.cognitiveParams.memoryDecay ^ (sf.readingHistory.length - index) })
  let culturalTime := sf.culturalLayer.map (fun e =>
    (e.1, e.2.historicalDepth, e.2.resonance))
  (personalTime, culturalTime, "universal_time_context")

/-- `generateSelfReflectivePattern` result. -/
structure ReflexiveElements where
  readingTrace : List TracePoint
  emergentMoments : List EmergentMoment
  languageCognitionInterface : LanguageCognitionInterface
  temporalFolding : List TemporalFoldEntry × List (String × ℝ × ℝ) × String

/-- `generateSelfReflectivePattern`. -/
noncomputable def generateSelfReflectivePattern (o : Oracle) (sf : SemanticField)
    (nodes : List Node) (connections : List Connection) (ctr : ℕ) :
    ReflexiveElements × ℕ :=
  let patternRecognition := sf.recognizeEmergentPatterns nodes connections
  let moments := captureEmergentMoments o patternRecognition ctr
  ({ readingTrace := sf.visualizeReadingTrace
     emergentMoments := moments.1
     languageCognitionInterface := sf.mapLanguageCognitionInterface
     temporalFolding := sf.generateTemporalFolding }, moments.2)

end SemanticField

/-! ## OrganicLayout (src/organic-typography-ver.2/js/OrganicLayout.js)

The engine is embedded at `ℝ`; `Math.random()` / `Date.now()` are drawn from
the `Oracle` through an explicit call counter, consumed in source evaluation
order.  The read-only accessor methods (`getSystemReport` and friends) and
the legacy `createBranch` / `createAvoidanceBranch` pair — unreachable from
`grow` in this version, which uses the semantic variants — are not part of
any claim and are omitted. -/

/-- `this.params` (the extended growth parameters). -/
structure GrowthParams where
  initialEnergy : ℝ
  energyDecay : ℝ
  straightPreference : ℝ
  branchProbability : ℝ
  intersectionPenalty : ℝ
  coilingThreshold : ℝ
  characterSpacing : ℝ
  lineSpacing : ℝ
  semanticGravity : ℝ
  collocationResonance : ℝ
  interferenceAmplitude : ℝ
  embodimentFactor : ℝ
  temporalDecay : ℝ
  reflexivityDepth : ℝ

/-- The constructor's parameter values. -/
noncomputable def defaultParams : GrowthParams :=
  { initialEnergy := 100, energyDecay := 3 / 10, straightPreference := 9 / 10
    branchProbability := 15 / 100, intersectionPenalty := 50, coilingThreshold := 30
    characterSpacing := 18, lineSpacing := 20, semanticGravity := 6 / 10
    collocationResonance := 8 / 10, interferenceAmplitude := 4 / 10
    embodimentFactor := 7 / 10, temporalDecay := 95 / 100, reflexivityDepth := 1 / 2 }

/-- `this.currentReadingState` (set once at construction). -/
structure ReadingState where
  position : P2 ℝ
  attention : List Node
  cognitiveLoad : ℝ
  temporalContext : ℕ

/-- An entry of `this.emergentPatterns` (cluster / bridge / spiral variants
share one record; unused fields keep their defaults).  A bridge's `strength`
is `bridge.semanticGap || 0`, and connection records carry no `semanticGap`
property, so it is `0`. -/
structure EmergentPattern where
  type : String
  elements : List Node := []
  connection : Option Connection := none
  trajectory : List HistEntry := []
  generation : ℕ
  strength : ℝ := 0
  complexity : ℝ := 0

/-- A trajectory endpoint snapshot (`{id, char, position}`). -/
structure TrajEndpoint where
  id : String
  char : String
  position : P2 ℝ

/-- An entry of `this.readingTrajectory` (`recordReadingTrajectory`), with
the `semanticContext`/`cognitiveState` sub-objects flattened (`sc`/`cs`
prefixes).  `scReadingDepth = none` models the
`fromNode.readingDepth || {temporal: 0, semantic: 0}` default. -/
structure TrajPoint where
  timestamp : ℕ
  src : TrajEndpoint
  dst : Option TrajEndpoint
  direction : V2 ℝ
  scResonance : ℝ
  scCollocationStrength : ℝ
  scReadingDepth : Option ReadingDepth
  csEnergy : ℝ
  csGeneration : ℕ
  csCurvature : ℝ

/-- `captureSystemState` snapshot. -/
structure SystemStateSnap where
  growthPhase : String
  semanticDensity : ℝ
  visualComplexity : ℝ
  temporalDepth : ℕ
  cognitiveLoad : ℝ

/-- A `generateSystemInsights` entry. -/
structure Insight where
  type : String
  description : String
  significance : ℝ

/-- The `readingMetrics` snapshot of `performSelfReflection`. -/
structure ReadingMetricsSnap where
  totalNodes : ℕ
  totalConnections : ℕ
  averageSemanticResonance : ℝ
  emergentPatternCount : ℕ
  collocationFieldCount : ℕ
  readingTrajectoryLength : ℕ

/-- An entry of `this.selfReflectionHistory`. -/
structure SelfReflection where
  timestamp : ℕ
  generation : ℕ
  metrics : ReadingMetricsSnap
  reflexiveElements : SemanticField.ReflexiveElements
  systemState : SystemStateSnap
  insights : List Insight

/-- The engine state (`class OrganicLayout`).  `selfReflectionHistory` is
created lazily by `performSelfReflection` (`none` = the property does not
exist yet). -/
structure OrganicLayout where
  text : List Char
  canvasWidth : ℝ
  canvasHeight : ℝ
  nodes : List Node
  connections : List Connection
  spatialIndex : SpatialIndex Node ℝ
  growthQueue : List Node
  generation : ℕ
  isGrowing : Bool
  semanticField : SemanticField
  collocationFields : List SemanticField.CollocationField
  readingTrajectory : List TrajPoint
  emergentPatterns : List EmergentPattern
  params : GrowthParams
  currentReadingState : ReadingState
  selfReflectionHistory : Option (List SelfReflection)

namespace OrganicLayout

/-- `text[i]` — a one-character string, or `""` for the out-of-range
`undefined` (which only the guards of the callers can produce). -/
def charAt (text : List Char) (i : ℕ) : String :=
  match text.get? i with
  | some c => String.mk [c]
  | none => ""

/-- The id `node_${this.nodes.length}` given to every newly created node. -/
def freshNodeId (s : OrganicLayout) : String :=
  "node_" ++ toString s.nodes.length

/-- `new OrganicLayout(text, w, h)`: constructor plus
`initializeSemanticStructure` (which analyzes the text and records
`currentReadingState`, consuming one `Date.now()`). -/
noncomputable def newLayout (o : Oracle) (text : List Char)
    (canvasWidth canvasHeight : ℝ) (ctr : ℕ) : OrganicLayout × ℕ :=
  ({ text := text, canvasWidth := canvasWidth, canvasHeight := canvasHeight
     nodes := [], connections := []
     spatialIndex := SpatialIndex.new Node canvasWidth canvasHeight 50
     growthQueue := [], generation := 0, isGrowing := false
     semanticField := SemanticField.init.analyzeSemanticStructure text
     collocationFields := [], readingTrajectory := [], emergentPatterns := []
     params := defaultParams
     currentReadingState :=
       { position := ⟨canvasWidth / 2, canvasHeight / 2⟩, attention := []
         cognitiveLoad := 1 / 2, temporalContext := o.now ctr }
     selfReflectionHistory := none }, ctr + 1)

/-- One iteration of `initialize()`'s seeding loop: build seed `i` from the
accumulated state and append it to the node store, spatial index and
frontier queue.  Each seed consumes three `Math.random()` draws in source
evaluation order: the ring radius, then one per velocity component (the two
components jitter the angle independently). -/
noncomputable def initSeedStep (o : Oracle) (seedCount : ℕ) (centerX centerY : ℝ)
    (acc : OrganicLayout × ℕ) (i : ℕ) : OrganicLayout × ℕ :=
  let angle := (i : ℝ) / (seedCount : ℝ) * (Real.pi * 2)
  let radius := 100 + o.rand acc.2 * 50
  let seed : Node :=
    { id := freshNodeId acc.1
      char := charAt acc.1.text 0
      position := ⟨centerX + Real.cos angle * radius, centerY + Real.sin angle * radius⟩
      velocity := ⟨Real.cos (angle + (o.rand (acc.2 + 1) - 1 / 2) * (1 / 2)),
                   Real.sin (angle + (o.rand (acc.2 + 2) - 1 / 2) * (1 / 2))⟩
      energy := acc.1.params.initialEnergy
      generation := 0
      textIndex := i * Nat.div acc.1.text.length seedCount
      parent := none, children := [], curvature := 0 }
  ({ acc.1 with nodes := acc.1.nodes ++ [seed]
                spatialIndex := (acc.1.spatialIndex.insert seed).2
                growthQueue := acc.1.growthQueue ++ [seed] }, acc.2 + 3)

/-- `initialize()`: place `max(3, ⌊√(text.length)/5⌋)` seeds on a ring of
radius `100 + rand*50` around the canvas center. -/
noncomputable def initializeEngine (o : Oracle) (s : OrganicLayout) (ctr : ℕ) :
    OrganicLayout × ℕ :=
  let seedCount : ℕ := max 3 (⌊Real.sqrt (s.text.length : ℝ) / 5⌋).toNat
  (List.range seedCount).foldl
    (initSeedStep o seedCount (s.canvasWidth / 2) (s.canvasHeight / 2)) (s, ctr)

/-- `getNormalizedDirection(from, to)` (`from` is reserved in Lean): the unit
vector toward `q`, or `(0,0)` when the points coincide (`mag > 0` guard). -/
noncomputable def getNormalizedDirection (p q : P2 ℝ) : V2 ℝ :=
  let dx := q.x - p.x
  let dy := q.y - p.y
  let mag := Real.sqrt (dx * dx + dy * dy)
  if mag > 0 then ⟨dx / mag, dy / mag⟩ else ⟨0, 0⟩

/-- `normalizeVector`, with the `mag > 0` guard. -/
noncomputable def normalizeVector (vector : V2 ℝ) : V2 ℝ :=
  let mag := Real.sqrt (vector.dx * vector.dx + vector.dy * vector.dy)
  if mag > 0 then ⟨vector.dx / mag, vector.dy / mag⟩ else ⟨0, 0⟩

/-- `dot`. -/
def dotV (v1 v2 : V2 ℝ) : ℝ := v1.dx * v2.dx + v1.dy * v2.dy

/-- `calculateGrowthDirection`: physical repulsion from close neighbors
added to the velocity, then an UNGUARDED normalization (contrast
`normalizeVector`).  Over `ℝ`, `x / 0 = 0`; the float behavior of the two
division sites at degenerate inputs (a coincident distinct neighbor, a
cancelled-out direction) is NaN and is modelled separately by the
`calculateGrowthDirectionF` NaN-tracking embedding below. -/
noncomputable def calculateGrowthDirection (node : Node) (nearbyNodes : List Node) : V2 ℝ :=
  let direction := nearbyNodes.foldl (fun dir nearby =>
    if nearby.id = node.id then dir
    else
      let dx := node.position.x - nearby.position.x
      let dy := node.position.y - nearby.position.y
      let dist := Real.sqrt (dx * dx + dy * dy)
      if dist < 30 then
        let force := (30 - dist) / 30
        ⟨dir.dx + dx / dist * force * (3 / 10), dir.dy + dy / dist * force * (3 / 10)⟩
      else dir) node.velocity
  let mag := Real.sqrt (direction.dx * direction.dx + direction.dy * direction.dy)
  ⟨direction.dx / mag, direction.dy / mag⟩

/-- `applyCurvature`: rotate to `atan2` of the direction plus a random angle
scaled by `curvature * π`; consumes one `Math.random()`. -/
noncomputable def applyCurvature (o : Oracle) (direction : V2 ℝ) (curvature : ℝ)
    (ctr : ℕ) : V2 ℝ × ℕ :=
  let angle := SemanticField.atan2 direction.dy direction.dx
  let curveAngle := angle + (o.rand ctr - 1 / 2) * curvature * Real.pi
  (⟨Real.cos curveAngle, Real.sin curveAngle⟩, ctr + 1)

/-- `checkIntersection`: some neighbor within 15 units. -/
noncomputable def checkIntersection (node : Node) (nearbyNodes : List Node) : Prop :=
  ∃ nearby ∈ nearbyNodes, SemanticField.edist node.position nearby.position < 15

/-- `checkSemanticIntersection`: physical intersection, or a semantically
near (`< 0.3`) neighbor within 25 units. -/
noncomputable def checkSemanticIntersection (sf : SemanticField) (node : Node)
    (nearbyNodes : List Node) : Prop :=
  checkIntersection node nearbyNodes ∨
    ∃ nearby ∈ nearbyNodes,
      sf.getSemanticDistance node.char nearby.char < 3 / 10 ∧
      SemanticField.edist node.position nearby.position < 25

/-- `calculateSemanticGrowthDirection`: blend the physical direction with the
per-neighbor semantic attraction/repulsion/lateral forces, then normalize
(with `normalizeVector`'s guard). -/
noncomputable def calculateSemanticGrowthDirection (s : OrganicLayout) (node : Node)
    (nearbyNodes : List Node) : V2 ℝ :=
  let physicalDir := calculateGrowthDirection node nearbyNodes
  let semanticForce := nearbyNodes.foldl (fun f nearby =>
    if nearby.id = node.id then f
    else
      let semanticVector := s.semanticField.calculateSemanticForce node nearby
        (SemanticField.edist node.position nearby.position)
      let dirToNearby := getNormalizedDirection node.position nearby.position
      let f1 : V2 ℝ :=
        ⟨f.dx + dirToNearby.dx * semanticVector.attraction * s.params.semanticGravity,
         f.dy + dirToNearby.dy * semanticVector.attraction * s.params.semanticGravity⟩
      let f2 : V2 ℝ :=
        ⟨f1.dx - dirToNearby.dx * semanticVector.repulsion * s.params.semanticGravity,
         f1.dy - dirToNearby.dy * semanticVector.repulsion * s.params.semanticGravity⟩
      let lateralDir : V2 ℝ := ⟨-dirToNearby.dy, dirToNearby.dx⟩
      ⟨f2.dx + lateralDir.dx * semanticVector.lateral,
       f2.dy + lateralDir.dy * semanticVector.lateral⟩) (⟨0, 0⟩ : V2 ℝ)
  normalizeVector
    ⟨physicalDir.dx * (1 - s.params.semanticGravity) + semanticForce.dx,
     physicalDir.dy * (1 - s.params.semanticGravity) + semanticForce.dy⟩

/-- `applyInterferencePattern`. -/
noncomputable def applyInterferencePattern (s : OrganicLayout) (visualDir embodiedDir : V2 ℝ)
    (node : Node) : V2 ℝ :=
  let interferenceAmplitude := s.params.interferenceAmplitude
  let embodimentFactor := s.params.embodimentFactor
  let phase := (node.generation : ℝ) * (1 / 10) + (node.textIndex : ℝ) * (5 / 100)
  let interferenceX := Real.sin phase * interferenceAmplitude
  let interferenceY := Real.cos (phase * (13 / 10)) * interferenceAmplitude
  ⟨visualDir.dx * (1 - embodimentFactor) + embodiedDir.dx * embodimentFactor + interferenceX,
   visualDir.dy * (1 - embodimentFactor) + embodiedDir.dy * embodimentFactor + interferenceY⟩

/-- `calculateSemanticCurvature`. -/
noncomputable def calculateSemanticCurvature (s : OrganicLayout) (node : Node)
    (nearbyNodes : List Node) : ℝ :=
  let baseCurvature := (s.params.initialEnergy - node.energy) / s.params.initialEnergy
  let maxCollocation := nearbyNodes.foldl (fun m nearby =>
    max m (s.semanticField.getCollocationStrength node.char nearby.char)) 0
  let complexityFactor := min 1 ((s.semanticField.getSemanticComplexity node.char : ℝ) / 10)
  baseCurvature + maxCollocation * (3 / 10) + complexityFactor * (2 / 10)

/-- `calculateEnergyDecay`: floored at `0.1`, raised by cognitive load,
lowered by the collocation bonus. -/
noncomputable def calculateEnergyDecay (s : OrganicLayout) (node : Node)
    (nearbyNodes : List Node) : ℝ :=
  let baseDecay := s.params.energyDecay
  let loadPenalty := s.semanticField.calculateCognitiveLoad node * (1 / 10)
  let collocationBonus := (nearbyNodes.map (fun nearby =>
    s.semanticField.getCollocationStrength node.char nearby.char * (5 / 100))).sum
  max (1 / 10) (baseDecay + loadPenalty - collocationBonus)

/-- `calculateSemanticResonance`. -/
noncomputable def calculateSemanticResonance (s : OrganicLayout) (node : Node)
    (nearbyNodes : List Node) : ℝ :=
  let totalResonance := (nearbyNodes.map (fun nearby =>
    (1 - s.semanticField.getSemanticDistance node.char nearby.char) *
      max 0 (1 - SemanticField.edist node.position nearby.position / 100))).sum
  min 1 (totalResonance / max 1 (nearbyNodes.length : ℝ))

/-- `getMaxCollocationStrength`. -/
noncomputable def getMaxCollocationStrength (s : OrganicLayout) (node : Node)
    (nearbyNodes : List Node) : ℝ :=
  nearbyNodes.foldl (fun m nearby =>
    max m (s.semanticField.getCollocationStrength node.char nearby.char)) 0

/-- `getCulturalDepth` (`?.depth || 0` over the never-written cultural
layer). -/
noncomputable def getCulturalDepth (s : OrganicLayout) (node : Node) : ℝ :=
  ((alistGet s.semanticField.culturalLayer node.char).map (fun c => c.depth)).getD 0

/-- `calculateCognitiveDepth`. -/
noncomputable def calculateCognitiveDepth (s : OrganicLayout) (node : Node) : ℝ :=
  Real.log ((node.generation : ℝ) + 1) * node.energy / s.params.initialEnergy

/-- `calculateReadingDepth`. -/
noncomputable def calculateReadingDepth (s : OrganicLayout) (node : Node) : ReadingDepth :=
  { temporal := s.semanticField.readingHistory.length
    semantic := node.generation
    cognitive := calculateCognitiveDepth s node
    cultural := getCulturalDepth s node }

/-- `getReadingPhase`. -/
noncomputable def getReadingPhase (s : OrganicLayout) : String :=
  let progress := (s.generation : ℝ) / ((s.text.length : ℝ) * 2)
  if progress < 3 / 10 then "initiation"
  else if progress < 7 / 10 then "development"
  else "culmination"

/-- `getCurrentTemporalLayer` (consumes one `Date.now()`). -/
noncomputable def getCurrentTemporalLayer (o : Oracle) (s : OrganicLayout) (ctr : ℕ) :
    TemporalLayer × ℕ :=
  ({ generation := s.generation
     timestamp := o.now ctr
     readingPhase := getReadingPhase s
     contextualDepth := s.semanticField.readingHistory.length }, ctr + 1)

/-- `determineConnectionType` result. -/
structure ConnType where
  visual : String
  semantic : String
  interference : Interference

/-- `determineConnectionType`. -/
noncomputable def determineConnectionType (s : OrganicLayout) (fromNode toNode : Node) :
    ConnType :=
  let energy := fromNode.energy
  let semanticDistance := s.semanticField.getSemanticDistance fromNode.char toNode.char
  let collocationStrength := s.semanticField.getCollocationStrength fromNode.char toNode.char
  let visualType :=
    if energy > s.params.coilingThreshold then "primary"
    else if energy > s.params.coilingThreshold * (1 / 2) then "secondary"
    else "tertiary"
  let semanticType :=
    if collocationStrength > 7 / 10 then "collocation"
    else if semanticDistance < 4 / 10 then "similarity"
    else if semanticDistance > 8 / 10 then "contrast"
    else "neutral"
  let visualSemanticRatio := (1 - semanticDistance) / max (1 / 10) (energy / s.params.initialEnergy)
  { visual := visualType, semantic := semanticType
    interference :=
      { amplitude := visualSemanticRatio * s.params.interferenceAmplitude
        frequency := collocationStrength * 2 * Real.pi
        phase := SemanticField.jsMod ((fromNode.generation : ℝ) + (toNode.generation : ℝ))
          (2 * Real.pi) } }

/-- `calculateSemanticBranchProbability`. -/
noncomputable def calculateSemanticBranchProbability (s : OrganicLayout) (node : Node)
    (nearbyNodes : List Node) : ℝ :=
  let baseProbability := s.params.branchProbability
  let complexityBonus := min (3 / 10) ((s.semanticField.getSemanticComplexity node.char : ℝ) / 10)
  let collocationBonus := (nearbyNodes.map (fun nearby =>
    if s.semanticField.getCollocationStrength node.char nearby.char > 1 / 2
    then (1 / 10 : ℝ) else 0)).sum
  let depthFactor := min 1 ((s.semanticField.readingHistory.length : ℝ) / 100)
  min (8 / 10) (baseProbability + complexityBonus + collocationBonus * depthFactor)

/-- `calculateSemanticInterest`. -/
noncomputable def calculateSemanticInterest (s : OrganicLayout) (node : Node)
    (direction : V2 ℝ) (nearbyNodes : List Node) : ℝ :=
  let angle := SemanticField.atan2 direction.dy direction.dx
  let base := Real.sin (angle * 3) * (3 / 10)
  let interest := base + (nearbyNodes.map (fun nearby =>
    let nearbyDir := getNormalizedDirection node.position nearby.position
    if dotV direction nearbyDir > 7 / 10 then
      (1 - s.semanticField.getSemanticDistance node.char nearby.char) * (4 / 10)
    else 0)).sum
  max 0 interest

/-- `calculateSemanticFreedom`. -/
noncomputable def calculateSemanticFreedom (s : OrganicLayout) (position : P2 ℝ)
    (char : String) (nearbyNodes : List Node) : ℝ :=
  let freedoms := nearbyNodes.foldl (fun acc nearby =>
    (acc.1 * min 1 (SemanticField.edist position nearby.position / 30),
     acc.2 * min 1 (s.semanticField.getSemanticDistance char nearby.char)))
    ((1 : ℝ), (1 : ℝ))
  (freedoms.1 + freedoms.2) / 2

/-- Append a child id to the parent's `children` list inside the node store
(the source mutates the shared node object in place; object identity is
modelled by node id). -/
def updChildren (nodes : List Node) (parentId childId : String) : List Node :=
  nodes.map (fun n =>
    if n.id = parentId then { n with children := n.children ++ [childId] } else n)

/-- The extension child constructed by `grow()` for an active node (the
`newNode` literal). -/
noncomputable def mkGrowthChild (s : OrganicLayout) (node : Node)
    (nearbyNodes : List Node) (curvedDir : V2 ℝ) (curvature : ℝ)
    (tl : TemporalLayer) : Node :=
  { id := freshNodeId s
    char := charAt s.text (node.textIndex + 1)
    position := ⟨node.position.x + curvedDir.dx * s.params.characterSpacing,
                 node.position.y + curvedDir.dy * s.params.characterSpacing⟩
    velocity := curvedDir
    energy := node.energy - calculateEnergyDecay s node nearbyNodes
    generation := node.generation + 1
    textIndex := node.textIndex + 1
    parent := some node.id
    children := []
    curvature := curvature
    semanticResonance := some (calculateSemanticResonance s node nearbyNodes)
    collocationStrength := some (getMaxCollocationStrength s node nearbyNodes)
    readingDepth := some (calculateReadingDepth s node)
    temporalLayer := some tl }

/-- The branch node constructed by `createSemanticBranch` (the `branchNode`
literal): energy `0.8 ×` the parent's, generation and text index advanced by
one. -/
noncomputable def mkSemanticBranchNode (s : OrganicLayout) (parentNode : Node)
    (bestDirection : V2 ℝ) (maxInterest : ℝ) (tl : TemporalLayer) : Node :=
  { id := freshNodeId s
    char := charAt s.text (parentNode.textIndex + 1)
    position := ⟨parentNode.position.x + bestDirection.dx * s.params.characterSpacing,
                 parentNode.position.y + bestDirection.dy * s.params.characterSpacing⟩
    velocity := bestDirection
    energy := parentNode.energy * (8 / 10)
    generation := parentNode.generation + 1
    textIndex := parentNode.textIndex + 1
    parent := some parentNode.id
    children := []
    curvature := 0
    semanticResonance := some maxInterest
    branchType := some "semantic"
    temporalLayer := some tl }

/-- `createSemanticBranch`: pick the most semantically interesting of 24
sampled angles (strict improvement keeps the first maximum; `bestDirection`
stays `null` when no angle has positive interest), build the branch node
(consuming one `Date.now()` for its temporal layer), and accept it unless the
semantic intersection test rejects it. -/
noncomputable def createSemanticBranch (o : Oracle) (s : OrganicLayout)
    (parentNode : Node) (nearbyNodes : List Node) (ctr : ℕ) :
    Option Node × OrganicLayout × ℕ :=
  open Classical in
  let best := (List.range 24).foldl (fun acc (k : ℕ) =>
    let angle := (k : ℝ) * (Real.pi / 12)
    let testDir : V2 ℝ := ⟨Real.cos angle, Real.sin angle⟩
    let interest := calculateSemanticInterest s parentNode testDir nearbyNodes
    if interest > acc.2 then (some testDir, interest) else acc)
    ((none : Option (V2 ℝ)), (0 : ℝ))
  match best.1 with
  | none => (none, s, ctr)
  | some bestDirection =>
    let tl := getCurrentTemporalLayer o s ctr
    let branchNode := mkSemanticBranchNode s parentNode bestDirection best.2 tl.1
    if ¬ checkSemanticIntersection s.semanticField branchNode nearbyNodes then
      let s1 := { s with nodes := s.nodes ++ [branchNode]
                         spatialIndex := (s.spatialIndex.insert branchNode).2 }
      let s2 := { s1 with nodes := updChildren s1.nodes parentNode.id branchNode.id }
      let s3 := { s2 with connections := s2.connections ++
        [{ fromId := parentNode.id, toId := branchNode.id, type := "semantic_branch"
           semanticType := some "exploration", curvature := 3 / 10
           resonance := some best.2 }] }
      (some branchNode, s3, tl.2)
    else (none, s, tl.2)

/-- `createSemanticAvoidanceBranch`: scan 16 angles for maximal joint
physical+semantic freedom; when some angle was found and the freedom exceeds
`0.3`, delegate to `createSemanticBranch` (the found angle itself is
discarded, as in the source). -/
noncomputable def createSemanticAvoidanceBranch (o : Oracle) (s : OrganicLayout)
    (parentNode : Node) (nearbyNodes : List Node) (ctr : ℕ) :
    Option Node × OrganicLayout × ℕ :=
  open Classical in
  let best := (List.range 16).foldl (fun acc (k : ℕ) =>
    let angle := (k : ℝ) * (Real.pi / 8)
    let testPos : P2 ℝ :=
      ⟨parentNode.position.x + Real.cos angle * s.params.characterSpacing,
       parentNode.position.y + Real.sin angle * s.params.characterSpacing⟩
    let freedom := calculateSemanticFreedom s testPos parentNode.char nearbyNodes
    if freedom > acc.2 then (some angle, freedom) else acc)
    ((none : Option ℝ), (0 : ℝ))
  if best.1.isSome ∧ best.2 > 3 / 10 then
    createSemanticBranch o s parentNode nearbyNodes ctr
  else (none, s, ctr)

/-- `recordReadingTrajectory`: push a trajectory point (one `Date.now()`),
then trim to the newest 800 entries when the list exceeds 1000.  The `to`
endpoint is always non-null in the calls `grow()` makes. -/
noncomputable def recordReadingTrajectory (o : Oracle) (s : OrganicLayout)
    (fromNode toNode : Node) (direction : V2 ℝ) (ctr : ℕ) : OrganicLayout × ℕ :=
  let trajectoryPoint : TrajPoint :=
    { timestamp := o.now ctr
      src := { id := fromNode.id, char := fromNode.char, position := fromNode.position }
      dst := some { id := toNode.id, char := toNode.char, position := toNode.position }
      direction := direction
      scResonance := fromNode.semanticResonance.getD 0
      scCollocationStrength := fromNode.collocationStrength.getD 0
      scReadingDepth := fromNode.readingDepth
      csEnergy := fromNode.energy
      csGeneration := fromNode.generation
      csCurvature := fromNode.curvature }
  let traj := s.readingTrajectory ++ [trajectoryPoint]
  let traj := if traj.length > 1000 then traj.drop (traj.length - 800) else traj
  ({ s with readingTrajectory := traj }, ctr + 1)

/-- `arraysOverlap`: Jaccard overlap of two id lists against a threshold. -/
noncomputable def arraysOverlap (arr1 arr2 : List String) (threshold : ℝ) : Prop :=
  open Classical in
  ((arr1.filter (fun x => decide (x ∈ arr2))).length : ℝ) /
    (((arr1 ++ arr2).dedup).length : ℝ) ≥ threshold

/-- `hasExistingPattern`: only the `'cluster'` probe can match (the callback
checks `type === 'cluster'` before anything else, so for bridges it is
constantly false). -/
noncomputable def hasExistingPattern (s : OrganicLayout) (type : String)
    (newPattern : List Node) : Prop :=
  ∃ pattern ∈ s.emergentPatterns,
    type = "cluster" ∧ pattern.type = "semantic_cluster" ∧
    arraysOverlap (pattern.elements.map (fun e => e.id))
      (newPattern.map (fun e => e.id)) (7 / 10)

/-- The cluster-recording step of `updateEmergentPatterns`. -/
noncomputable def clusterStep (acc : OrganicLayout) (cluster : List Node) :
    OrganicLayout :=
  open Classical in
  if ¬ hasExistingPattern acc "cluster" cluster then
    { acc with emergentPatterns := acc.emergentPatterns ++
      [{ type := "semantic_cluster", elements := cluster
         generation := acc.generation
         strength := (cluster.length : ℝ) / (acc.nodes.length : ℝ) }] }
  else acc

/-- The bridge-recording step of `updateEmergentPatterns`. -/
noncomputable def bridgeStep (acc : OrganicLayout) (bridge : Connection) :
    OrganicLayout :=
  { acc with emergentPatterns := acc.emergentPatterns ++
    [{ type := "semantic_bridge", connection := some bridge
       generation := acc.generation, strength := 0 }] }

/-- The spiral-recording step of `updateEmergentPatterns`. -/
noncomputable def spiralStep (acc : OrganicLayout) (spiral : List HistEntry) :
    OrganicLayout :=
  { acc with emergentPatterns := acc.emergentPatterns ++
    [{ type := "reading_spiral", trajectory := spiral
       generation := acc.generation
       complexity := (spiral.length : ℝ) }] }

/-- `updateEmergentPatterns`: below 10 nodes do nothing; otherwise append new
clusters (deduplicated against existing ones by ≥ 70% overlap), every bridge
(`hasExistingPattern('bridge', ·)` is constantly false), and every spiral. -/
noncomputable def updateEmergentPatterns (s : OrganicLayout) : OrganicLayout :=
  open Classical in
  if s.nodes.length < 10 then s
  else
    let patterns := s.semanticField.recognizeEmergentPatterns s.nodes s.connections
    patterns.spirals.foldl spiralStep
      (patterns.bridges.foldl bridgeStep (patterns.clusters.foldl clusterStep s))

/-- `calculateAverageSemanticResonance`. -/
noncomputable def calculateAverageSemanticResonance (s : OrganicLayout) : ℝ :=
  if s.nodes.length = 0 then 0
  else (s.nodes.map (fun node => node.semanticResonance.getD 0)).sum / (s.nodes.length : ℝ)

/-- `calculateSemanticDensity`. -/
noncomputable def calculateSemanticDensity (s : OrganicLayout) : ℝ :=
  if s.nodes.length = 0 then 0
  else
    ((s.connections.filter (fun conn =>
      (conn.semanticType.map (fun t => decide (t ≠ "" ∧ t ≠ "neutral"))).getD false)).length : ℝ) /
      (s.nodes.length : ℝ)

/-- `calculateVisualComplexity`. -/
noncomputable def calculateVisualComplexity (s : OrganicLayout) : ℝ :=
  if s.connections.length = 0 then 0
  else (s.connections.map (fun conn => conn.curvature)).sum / (s.connections.length : ℝ)

/-- `captureSystemState`. -/
noncomputable def captureSystemState (s : OrganicLayout) : SystemStateSnap :=
  { growthPhase := getReadingPhase s
    semanticDensity := calculateSemanticDensity s
    visualComplexity := calculateVisualComplexity s
    temporalDepth := s.semanticField.readingHistory.length
    cognitiveLoad := s.semanticField.calculateAverageCognitiveLoad }

/-- `generateSystemInsights`. -/
noncomputable def generateSystemInsights (s : OrganicLayout) : List Insight :=
  open Classical in
  let clusterCount := (s.emergentPatterns.filter
    (fun p => decide (p.type = "semantic_cluster"))).length
  let i1 : List Insight :=
    if clusterCount > 0 then
      [{ type := "semantic_clustering"
         description := toString clusterCount ++ "個の語義クラスターが創発"
         significance := (clusterCount : ℝ) / (s.nodes.length : ℝ) }]
    else []
  let spiralCount := (s.emergentPatterns.filter
    (fun p => decide (p.type = "reading_spiral"))).length
  let i2 : List Insight :=
    if spiralCount > 0 then
      [{ type := "spiral_emergence"
         description := toString spiralCount ++ "個の読解螺旋パターンが出現"
         significance := (spiralCount : ℝ) / 10 }]
    else []
  let interferenceConnections := (s.connections.filter (fun conn =>
    (conn.interference.map (fun i => decide (i.amplitude > 3 / 10))).getD false)).length
  let i3 : List Insight :=
    if interferenceConnections > 0 then
      [{ type := "visual_semantic_interference"
         description := toString interferenceConnections ++ "個の視覚-語義干渉パターンが活性化"
         significance := (interferenceConnections : ℝ) / (s.connections.length : ℝ) }]
    else []
  i1 ++ i2 ++ i3

/-- `adaptSystemParameters`: nudge three parameters by the density /
complexity / load rules, then clamp each into `[0.1, 1.0]`. -/
noncomputable def adaptSystemParameters (s : OrganicLayout) (state : SystemStateSnap) :
    OrganicLayout :=
  let g0 := s.params.semanticGravity
  let g1 := if state.semanticDensity > 8 / 10 then g0 * (95 / 100)
            else if state.semanticDensity < 3 / 10 then g0 * (105 / 100) else g0
  let a0 := s.params.interferenceAmplitude
  let a1 := if state.visualComplexity > 7 / 10 then a0 * (9 / 10)
            else if state.visualComplexity < 3 / 10 then a0 * (11 / 10) else a0
  let d0 := s.params.energyDecay
  let d1 := if state.cognitiveLoad > 8 / 10 then d0 * (11 / 10)
            else if state.cognitiveLoad < 3 / 10 then d0 * (9 / 10) else d0
  { s with params := { s.params with
      semanticGravity := max (1 / 10) (min 1 g1)
      interferenceAmplitude := max (1 / 10) (min 1 a1)
      energyDecay := max (1 / 10) (min 1 d1) } }

/-- `performSelfReflection`: build the reflexive snapshot (consuming the
`Date.now()` calls of `captureEmergentMoments` and one for its own
timestamp), append it to the lazily created history, and adapt the
parameters. -/
noncomputable def performSelfReflection (o : Oracle) (s : OrganicLayout) (ctr : ℕ) :
    OrganicLayout × ℕ :=
  let re := SemanticField.generateSelfReflectivePattern o s.semanticField s.nodes
    s.connections ctr
  let readingMetrics : ReadingMetricsSnap :=
    { totalNodes := s.nodes.length
      totalConnections := s.connections.length
      averageSemanticResonance := calculateAverageSemanticResonance s
      emergentPatternCount := s.emergentPatterns.length
      collocationFieldCount := s.collocationFields.length
      readingTrajectoryLength := s.readingTrajectory.length }
  let selfReflection : SelfReflection :=
    { timestamp := o.now re.2
      generation := s.generation
      metrics := readingMetrics
      reflexiveElements := re.1
      systemState := captureSystemState s
      insights := generateSystemInsights s }
  let s1 := { s with
    selfReflectionHistory := some ((s.selfReflectionHistory.getD []) ++ [selfReflection]) }
  (adaptSystemParameters s1 selfReflection.systemState, re.2 + 1)

/-- The accepted-growth state mutation of `grow()`'s loop body: push the new
node, index it, register it as a child of its parent, and record the typed
connection. -/
noncomputable def acceptNewNode (s : OrganicLayout) (node newNode : Node)
    (curvature : ℝ) : OrganicLayout :=
  let s1 := { s with nodes := s.nodes ++ [newNode]
                     spatialIndex := (s.spatialIndex.insert newNode).2 }
  let s2 := { s1 with nodes := updChildren s1.nodes node.id newNode.id }
  let connectionType := determineConnectionType s2 node newNode
  { s2 with connections := s2.connections ++
    [{ fromId := node.id, toId := newNode.id
       type := connectionType.visual
       semanticType := some connectionType.semantic
       curvature := curvature
       interference := some connectionType.interference
       resonance := newNode.semanticResonance }] }

/-- The accepted-growth tail of `grow()`'s loop body: roll for a semantic
branch, extend the new frontier queue, and record the trajectory point.
`queue` is the queue already extended with the accepted `newNode`. -/
noncomputable def growNodeAccepted (o : Oracle) (s3 : OrganicLayout)
    (node newNode : Node) (nearbyNodes : List Node) (curvedDir : V2 ℝ)
    (queue : List Node) (ctr : ℕ) : OrganicLayout × List Node × ℕ :=
  open Classical in
  let branchProbability := calculateSemanticBranchProbability s3 node nearbyNodes
  let r := o.rand ctr
  let bres :=
    if r < branchProbability ∧ node.energy > 50 then
      createSemanticBranch o s3 node nearbyNodes (ctr + 1)
    else (none, s3, ctr + 1)
  let newQueue := match bres.1 with
    | some b => queue ++ [b]
    | none => queue
  let rt := recordReadingTrajectory o bres.2.1 node newNode curvedDir bres.2.2
  (rt.1, newQueue, rt.2)

/-- The rejected-growth tail of `grow()`'s loop body: try an avoidance
branch, extend the new frontier queue with it if one was produced, and record
the trajectory point.  `queue` is the accumulator's queue, without the
rejected `newNode`. -/
noncomputable def growNodeRejected (o : Oracle) (s : OrganicLayout)
    (node newNode : Node) (nearbyNodes : List Node) (curvedDir : V2 ℝ)
    (queue : List Node) (ctr : ℕ) : OrganicLayout × List Node × ℕ :=
  let ares := createSemanticAvoidanceBranch o s node nearbyNodes ctr
  let newQueue := match ares.1 with
    | some b => queue ++ [b]
    | none => queue
  let rt := recordReadingTrajectory o ares.2.1 node newNode curvedDir ares.2.2
  (rt.1, newQueue, rt.2)

/-- The accept-or-reject decision of `grow()`'s loop body: run the semantic
intersection test on the candidate `newNode` and take the corresponding
tail.  `queue` is the accumulator's queue before this node's contribution. -/
noncomputable def growNodeFinish (o : Oracle) (s : OrganicLayout)
    (node newNode : Node) (nearbyNodes : List Node) (curvedDir : V2 ℝ)
    (curvature : ℝ) (queue : List Node) (ctr : ℕ) : OrganicLayout × List Node × ℕ :=
  open Classical in
  if ¬ checkSemanticIntersection s.semanticField newNode nearbyNodes then
    growNodeAccepted o (acceptNewNode s node newNode curvature) node newNode
      nearbyNodes curvedDir (queue ++ [newNode]) ctr
  else
    growNodeRejected o s node newNode nearbyNodes curvedDir queue ctr

/-- The body of `grow()`'s per-frontier-node loop.  The accumulator carries
the engine state, the `newQueue` under construction and the oracle counter.
A node with exhausted energy or text is skipped (`continue`). -/
noncomputable def processGrowthNode (o : Oracle) (acc : OrganicLayout × List Node × ℕ)
    (node : Node) : OrganicLayout × List Node × ℕ :=
  open Classical in
  let s := acc.1
  if node.energy ≤ 0 ∨ node.textIndex ≥ s.text.length - 1 then acc
  else
    let q := s.spatialIndex.query node.position 50
    let nearbyNodes := q.1
    let s := { s with spatialIndex := q.2 }
    let growthDir := calculateSemanticGrowthDirection s node nearbyNodes
    let srb := SemanticField.simulateReadingBody o s.semanticField node s.nodes acc.2.2
    let embodiedDirection := srb.1
    let s := { s with semanticField := srb.2.1 }
    let interferencePattern := applyInterferencePattern s growthDir embodiedDirection node
    let curvature := calculateSemanticCurvature s node nearbyNodes
    let ac := applyCurvature o interferencePattern curvature srb.2.2
    let curvedDir := ac.1
    let tl := getCurrentTemporalLayer o s ac.2
    let newNode := mkGrowthChild s node nearbyNodes curvedDir curvature tl.1
    let collocationField := SemanticField.visualizeCollocationSensation s.semanticField
      node nearbyNodes
    let s := if collocationField.length > 0 then
        { s with collocationFields := s.collocationFields ++ collocationField }
      else s
    growNodeFinish o s node newNode nearbyNodes curvedDir curvature acc.2.1 tl.2

/-- `grow()`: the early return when not growing or the frontier is empty;
otherwise one full tick — process every frontier node, update the emergent
patterns, run the self-reflection pass on every 10th generation, install the
new frontier and advance the generation counter. -/
noncomputable def grow (o : Oracle) (s : OrganicLayout) (ctr : ℕ) : OrganicLayout × ℕ :=
  open Classical in
  if ¬ s.isGrowing ∨ s.growthQueue = [] then (s, ctr)
  else
    let res := s.growthQueue.foldl (processGrowthNode o) (s, ([] : List Node), ctr)
    let s1 := updateEmergentPatterns res.1
    let sr := if s1.generation % 10 = 0 then performSelfReflection o s1 res.2.2
              else (s1, res.2.2)
    ({ sr.1 with growthQueue := res.2.1, generation := sr.1.generation + 1 }, sr.2)

/-- `start()`. -/
def start (s : OrganicLayout) : OrganicLayout := { s with isGrowing := true }

/-- `pause()`. -/
def pause (s : OrganicLayout) : OrganicLayout := { s with isGrowing := false }

/-- `reset()`: clear all engine state (including a fresh `SemanticField`,
whose graph is NOT re-analyzed), then re-seed. -/
noncomputable def reset (o : Oracle) (s : OrganicLayout) (ctr : ℕ) : OrganicLayout × ℕ :=
  let s1 := { s with nodes := [], connections := [], growthQueue := []
                     generation := 0, isGrowing := false
                     spatialIndex := s.spatialIndex.clear
                     collocationFields := [], readingTrajectory := []
                     emergentPatterns := [], selfReflectionHistory := some []
                     semanticField := SemanticField.init }
  initializeEngine o s1 ctr

end OrganicLayout

/-! ## Resource Governor (src/unnamed/part_001, `performMemoryOptimization`)

Operates on the layout portion of the orchestrator (`layout.nodes` and
friends); the orchestrator-history trims at the end of the source function
concern state outside the embedded engine. -/

/-- `performMemoryOptimization`: evict the oldest nodes above the 1000 cap,
drop connections touching evicted nodes, rebuild the spatial index, and trim
the trajectory / collocation-field / emergent-pattern lists to their caps
(keeping the newest entries). -/
noncomputable def performMemoryOptimization (s : OrganicLayout) : OrganicLayout :=
  open Classical in
  let s :=
    if s.nodes.length > 1000 then
      let removeCount := s.nodes.length - 1000
      let removedNodes := s.nodes.take removeCount
      let remaining := s.nodes.drop removeCount
      let removedIds : List String := removedNodes.map (fun n => n.id)
      let conns := s.connections.filter (fun conn =>
        decide (conn.fromId ∉ removedIds ∧ conn.toId ∉ removedIds))
      let si := remaining.foldl (fun si node => (si.insert node).2) s.spatialIndex.clear
      { s with nodes := remaining, connections := conns, spatialIndex := si }
    else s
  let s :=
    if s.readingTrajectory.length > 500 then
      { s with readingTrajectory := s.readingTrajectory.drop (s.readingTrajectory.length - 500) }
    else s
  let s :=
    if s.collocationFields.length > 200 then
      { s with collocationFields := s.collocationFields.drop (s.collocationFields.length - 200) }
    else s
  if s.emergentPatterns.length > 100 then
    { s with emergentPatterns := s.emergentPatterns.drop (s.emergentPatterns.length - 100) }
  else s

/-! ## Float-semantics model of the growth-direction guards

`JNum` tracks IEEE NaN through the direction arithmetic of
`calculateGrowthDirection` / `normalizeVector` / `getNormalizedDirection`.
Within these functions a zero divisor forces a zero numerator (each divisor
is the Euclidean magnitude of its numerator components), so `0/0` — IEEE
NaN — is the only division-by-zero case that can occur, and `div` maps every
zero-divisor case to `nan`.  The other operations are exact on finite doubles
in the ranges reached here and propagate `nan` as IEEE does (`0 * NaN = NaN`;
any `<`/`>` comparison against `NaN` is false). -/

inductive JNum : Type where
  | nan : JNum
  | num (x : ℝ) : JNum

namespace JNum

noncomputable def add : JNum → JNum → JNum
  | num a, num b => num (a + b)
  | _, _ => nan

noncomputable def sub : JNum → JNum → JNum
  | num a, num b => num (a - b)
  | _, _ => nan

noncomputable def mul : JNum → JNum → JNum
  | num a, num b => num (a * b)
  | _, _ => nan

noncomputable def div : JNum → JNum → JNum
  | num a, num b => if b = 0 then nan else num (a / b)
  | _, _ => nan

noncomputable def sqrtJ : JNum → JNum
  | num a => if a < 0 then nan else num (Real.sqrt a)
  | nan => nan

/-- `a < b`, false whenever either side is NaN. -/
def ltJ : JNum → JNum → Prop
  | num a, num b => a < b
  | _, _ => False

/-- The value is NaN. -/
def isNaN : JNum → Prop
  | nan => True
  | num _ => False

end JNum

/-- One iteration of `calculateGrowthDirection`'s repulsion loop (the
`forEach` body), with no zero guard on `dist`. -/
noncomputable def growthDirStep (node : Node) (dir : JNum × JNum) (nearby : Node) :
    JNum × JNum :=
  open Classical in
  if nearby.id = node.id then dir
  else
    let dx := JNum.sub (.num node.position.x) (.num nearby.position.x)
    let dy := JNum.sub (.num node.position.y) (.num nearby.position.y)
    let dist := JNum.sqrtJ (JNum.add (JNum.mul dx dx) (JNum.mul dy dy))
    if JNum.ltJ dist (.num 30) then
      let force := JNum.div (JNum.sub (.num 30) dist) (.num 30)
      (JNum.add dir.1 (JNum.mul (JNum.mul (JNum.div dx dist) force) (.num (3 / 10))),
       JNum.add dir.2 (JNum.mul (JNum.mul (JNum.div dy dist) force) (.num (3 / 10))))
    else dir

/-- `calculateGrowthDirection` under float semantics: the repulsion loop and
the final normalization, with no zero guards (exactly as in the source). -/
noncomputable def calculateGrowthDirectionF (node : Node) (nearbyNodes : List Node) :
    JNum × JNum :=
  let direction := nearbyNodes.foldl (growthDirStep node)
    ((JNum.num node.velocity.dx, JNum.num node.velocity.dy) : JNum × JNum)
  let mag := JNum.sqrtJ (JNum.add (JNum.mul direction.1 direction.1)
    (JNum.mul direction.2 direction.2))
  (JNum.div direction.1 mag, JNum.div direction.2 mag)

/-- `normalizeVector` under float semantics: the `mag > 0` guard (false for a
NaN magnitude) routes every degenerate input to `(0, 0)`. -/
noncomputable def normalizeVectorF (v : JNum × JNum) : JNum × JNum :=
  open Classical in
  let mag := JNum.sqrtJ (JNum.add (JNum.mul v.1 v.1) (JNum.mul v.2 v.2))
  if JNum.ltJ (.num 0) mag then (JNum.div v.1 mag, JNum.div v.2 mag)
  else (.num 0, .num 0)

/-- `getNormalizedDirection` under float semantics (same `mag > 0` guard). -/
noncomputable def getNormalizedDirectionF (p q : P2 ℝ) : JNum × JNum :=
  open Classical in
  let dx := JNum.sub (.num q.x) (.num p.x)
  let dy := JNum.sub (.num q.y) (.num p.y)
  let mag := JNum.sqrtJ (JNum.add (JNum.mul dx dx) (JNum.mul dy dy))
  if JNum.ltJ (.num 0) mag then (JNum.div dx mag, JNum.div dy mag)
  else (.num 0, .num 0)

/-- A plain node for concrete engine inputs. -/
def plainNode (anId : String) (char : String) (pos : P2 ℝ) (vel : V2 ℝ)
    (energy : ℝ) : Node :=
  { id := anId, char := char, position := pos, velocity := vel, energy := energy
    generation := 0, textIndex := 0, parent := none, children := [], curvature := 0 }

/-- A minimal paused engine state (used to witness the `grow` no-op). -/
noncomputable def pausedState : OrganicLayout :=
  { text := ['a', 'b'], canvasWidth := 800, canvasHeight := 600
    nodes := [plainNode "node_0" "a" ⟨400, 300⟩ ⟨1, 0⟩ 100]
    connections := []
    spatialIndex := SpatialIndex.new Node 800 600 50
    growthQueue := [plainNode "node_0" "a" ⟨400, 300⟩ ⟨1, 0⟩ 100]
    generation := 0
    isGrowing := false
    semanticField := SemanticField.init
    collocationFields := [], readingTrajectory := [], emergentPatterns := []
    params := defaultParams
    currentReadingState := { position := ⟨400, 300⟩, attention := [], cognitiveLoad := 1 / 2
                             temporalContext := 0 }
    selfReflectionHistory := none }

/-- The all-zero oracle. -/
noncomputable def oracle0 : Oracle := { rand := fun _ => 0, now := fun _ => 0 }

/-- The 1001-node state over the Resource Governor's cap: ids
`node_0 .. node_1000` in creation order, everything else empty. -/
noncomputable def overCapState : OrganicLayout :=
  { pausedState with
    nodes := plainNode "node_0" "a" ⟨0, 0⟩ ⟨0, 0⟩ 100 ::
      (List.range 1000).map (fun k =>
        plainNode ("node_" ++ toString (k + 1)) "a" ⟨0, 0⟩ ⟨0, 0⟩ 100)
    growthQueue := [] }

/-- The 46225-character text `"a a a … a"` (23112 repetitions of `"a "`
followed by a final `"a"`): `46225 = 215²`, so the engine seeds
`max(3, ⌊215/5⌋) = 43` nodes, and every token is the word `"a"`. -/
def jsTextC1 : List Char := (List.replicate 23112 ('a' :: [' '])).flatten ++ ['a']

/-- The engine as constructed on `jsTextC1` (the state after
`new OrganicLayout(text, 800, 600)`). -/
noncomputable def c1State0 : OrganicLayout :=
  (OrganicLayout.newLayout oracle0 jsTextC1 800 600 0).1

/-- The engine and oracle counter after `initialize()`. -/
noncomputable def c1Init : OrganicLayout × ℕ :=
  OrganicLayout.initializeEngine oracle0 c1State0 1

/-- The running engine right before its first tick (after `start()`). -/
noncomputable def c1Pre : OrganicLayout := OrganicLayout.start c1Init.1

/-- The engine after its first completed tick. -/
noncomputable def c1Post : OrganicLayout := (OrganicLayout.grow oracle0 c1Pre c1Init.2).1

/-- Five consecutive vertices of a regular octagon: a clean half-circle
(all five lie on the circle of center `(1/2, (1+√2)/2)` and squared radius
`(2+√2)/2`, and the first and last points are diametrically opposite). -/
noncomputable def halfCirclePts : List (P2 ℝ) :=
  [⟨0, 0⟩, ⟨1, 0⟩, ⟨1 + Real.sqrt 2 / 2, Real.sqrt 2 / 2⟩,
   ⟨1 + Real.sqrt 2 / 2, 1 + Real.sqrt 2 / 2⟩, ⟨1, 1 + Real.sqrt 2⟩]

/-! ## Helper lemmas on the spatial index -/

section SpatialLemmas

variable {σ α : Type} [LinearOrderedField α] [FloorRing α] [SpatialItem σ α]

theorem mem_intRange {k a b : ℤ} : k ∈ intRange a b ↔ a ≤ k ∧ k ≤ b := by
  unfold intRange
  constructor
  · intro h
    obtain ⟨n, hn, hk⟩ := List.mem_map.mp h
    rw [List.mem_range] at hn
    omega
  · intro h
    refine List.mem_map.mpr ⟨(k - a).toNat, List.mem_range.mpr (by omega), by omega⟩

theorem alistGet_eq_some_mem {κ ν : Type} [DecidableEq κ] {m : List (κ × ν)}
    {k : κ} {v : ν} (h : alistGet m k = some v) : (k, v) ∈ m := by
  unfold alistGet at h
  cases hf : List.find? (fun e => decide (e.1 = k)) m with
  | none => rw [hf] at h; simp at h
  | some e =>
    rw [hf] at h
    have h1 := List.find?_some hf
    have h2 := List.mem_of_find?_eq_some hf
    simp only [decide_eq_true_eq] at h1
    have hkv : (k, v) = e := by
      cases e with
      | mk e1 e2 => simp_all
    rw [hkv]
    exact h2

theorem alistGet_map_set {κ ν : Type} [DecidableEq κ] (m : List (κ × ν))
    (k : κ) (v : ν) (h : alistHas m k = true) :
    alistGet (m.map (fun e => if e.1 = k then (k, v) else e)) k = some v := by
  induction m with
  | nil => simp [alistHas, alistGet] at h
  | cons e rest ih =>
    by_cases hk : e.1 = k
    · simp [alistGet, List.find?, hk]
    · have hrest : alistHas rest k = true := by
        simpa [alistHas, alistGet, List.find?, hk] using h
      simpa [alistGet, List.find?, hk] using ih hrest

theorem alistGet_set_self {κ ν : Type} [DecidableEq κ] (m : List (κ × ν))
    (k : κ) (v : ν) : alistGet (alistSet m k v) k = some v := by
  unfold alistSet
  split
  · exact alistGet_map_set m k v (by assumption)
  · rename_i hhas
    have hnone : List.find? (fun e => decide (e.1 = k)) m = none := by
      simp only [alistHas, alistGet, Bool.not_eq_true] at hhas
      cases hf : List.find? (fun e => decide (e.1 = k)) m with
      | none => rfl
      | some e => rw [hf] at hhas; simp at hhas
    unfold alistGet
    rw [List.find?_append, hnone]
    simp [List.find?]

/-- `query` on an empty cache with a legal radius: the raw grid scan. -/
theorem query_fst_of_cache_empty (si : SpatialIndex σ α) (pos : P2 α) (radius : α)
    (h0 : 0 ≤ radius) (hc : si.queryCache = []) :
    (si.query pos radius).1 =
      (intRange (-⌈radius / si.cellSize⌉) ⌈radius / si.cellSize⌉).flatMap (fun dx =>
        (intRange (-⌈radius / si.cellSize⌉) ⌈radius / si.cellSize⌉).flatMap (fun dy =>
          if ⌊pos.x / si.cellSize⌋ + dx < 0 ∨ ⌊pos.x / si.cellSize⌋ + dx ≥ si.gridWidth ∨
             ⌊pos.y / si.cellSize⌋ + dy < 0 ∨ ⌊pos.y / si.cellSize⌋ + dy ≥ si.gridHeight then []
          else ((alistGet si.grid
              (⌊pos.x / si.cellSize⌋ + dx, ⌊pos.y / si.cellSize⌋ + dy)).getD []).filter
              (fun it => decide (dist2 (itemPos it) pos ≤ radius ^ 2)))) := by
  rw [SpatialIndex.query, if_neg (not_lt.mpr h0), hc]
  rfl

/-- The scan state (grid and dimensions) is untouched by `query`; only the
cache may change. -/
theorem query_snd_frame (si : SpatialIndex σ α) (pos : P2 α) (radius : α) :
    (si.query pos radius).2.grid = si.grid ∧
    (si.query pos radius).2.cellSize = si.cellSize ∧
    (si.query pos radius).2.gridWidth = si.gridWidth ∧
    (si.query pos radius).2.gridHeight = si.gridHeight ∧
    (si.query pos radius).2.width = si.width ∧
    (si.query pos radius).2.height = si.height := by
  rw [SpatialIndex.query]
  split
  · exact ⟨rfl, rfl, rfl, rfl, rfl, rfl⟩
  · cases halist : alistGet si.queryCache (SpatialIndex.tfix pos.x, SpatialIndex.tfix pos.y, SpatialIndex.tfix radius) with
    | some cached => simp [halist]
    | none =>
      simp only [halist]
      split <;> exact ⟨rfl, rfl, rfl, rfl, rfl, rfl⟩

theorem remove_snd_frame (si : SpatialIndex σ α) (anId : String) :
    (si.remove anId).2.cellSize = si.cellSize ∧
    (si.remove anId).2.gridWidth = si.gridWidth ∧
    (si.remove anId).2.gridHeight = si.gridHeight ∧
    (si.remove anId).2.width = si.width ∧
    (si.remove anId).2.height = si.height := by
  rw [SpatialIndex.remove]
  split <;> exact ⟨rfl, rfl, rfl, rfl, rfl⟩

theorem insert_snd_frame (si : SpatialIndex σ α) (item : σ) :
    (si.insert item).2.cellSize = si.cellSize ∧
    (si.insert item).2.gridWidth = si.gridWidth ∧
    (si.insert item).2.gridHeight = si.gridHeight ∧
    (si.insert item).2.width = si.width ∧
    (si.insert item).2.height = si.height := by
  rw [SpatialIndex.insert]
  split
  · have h := remove_snd_frame si (itemId item)
    exact ⟨h.1, h.2.1, h.2.2.1, h.2.2.2.1, h.2.2.2.2⟩
  · exact ⟨rfl, rfl, rfl, rfl, rfl⟩

/-- A successful `insert` leaves the cache empty. -/
theorem insert_snd_queryCache (si : SpatialIndex σ α) (item : σ) :
    (si.insert item).2.queryCache = [] := by
  rw [SpatialIndex.insert]

/-- `query` with all scanned cells beyond the grid's right edge finds
nothing. -/
theorem query_eq_nil_right_out (si : SpatialIndex σ α) (pos : P2 α) (radius : α)
    (h0 : 0 ≤ radius) (hc : si.queryCache = [])
    (hgw : si.gridWidth ≤ ⌊pos.x / si.cellSize⌋ - ⌈radius / si.cellSize⌉) :
    (si.query pos radius).1 = [] := by
  rw [query_fst_of_cache_empty si pos radius h0 hc]
  rw [List.flatMap_eq_nil_iff]
  intro dx hdx
  rw [List.flatMap_eq_nil_iff]
  intro dy _
  have h1 := (mem_intRange.mp hdx).1
  rw [if_pos]
  exact Or.inr (Or.inl (by omega))

/-- `query` finds nothing when every indexed item is strictly farther than the
radius. -/
theorem query_eq_nil_of_far (si : SpatialIndex σ α) (pos : P2 α) (radius : α)
    (h0 : 0 ≤ radius) (hc : si.queryCache = [])
    (hfar : ∀ cell ∈ si.grid, ∀ item ∈ cell.2,
      radius ^ 2 < dist2 (itemPos item) pos) :
    (si.query pos radius).1 = [] := by
  rw [query_fst_of_cache_empty si pos radius h0 hc]
  rw [List.flatMap_eq_nil_iff]
  intro dx _
  rw [List.flatMap_eq_nil_iff]
  intro dy _
  split
  · rfl
  · rw [List.filter_eq_nil_iff]
    intro it hit
    cases halist : alistGet si.grid
        (⌊pos.x / si.cellSize⌋ + dx, ⌊pos.y / si.cellSize⌋ + dy) with
    | none => rw [halist] at hit; simp at hit
    | some items =>
      rw [halist] at hit
      simp only [Option.getD_some] at hit
      have hmem := alistGet_eq_some_mem halist
      have := hfar _ hmem it hit
      simp only [decide_eq_true_eq]
      exact not_le.mpr this

/-- Any item sitting in an in-bounds grid cell within the scan window and
within the radius is returned by `query` (on an empty cache). -/
theorem mem_query_of_cell (si : SpatialIndex σ α) (pos : P2 α) (radius : α)
    (item : σ) (gx gy : ℤ)
    (h0 : 0 ≤ radius) (hc : si.queryCache = [])
    (hmem : item ∈ (alistGet si.grid (gx, gy)).getD [])
    (hgx0 : 0 ≤ gx) (hgx1 : gx < si.gridWidth)
    (hgy0 : 0 ≤ gy) (hgy1 : gy < si.gridHeight)
    (hdx : gx - ⌊pos.x / si.cellSize⌋ ≤ ⌈radius / si.cellSize⌉ ∧
           ⌊pos.x / si.cellSize⌋ - gx ≤ ⌈radius / si.cellSize⌉)
    (hdy : gy - ⌊pos.y / si.cellSize⌋ ≤ ⌈radius / si.cellSize⌉ ∧
           ⌊pos.y / si.cellSize⌋ - gy ≤ ⌈radius / si.cellSize⌉)
    (hdist : dist2 (itemPos item) pos ≤ radius ^ 2) :
    item ∈ (si.query pos radius).1 := by
  rw [query_fst_of_cache_empty si pos radius h0 hc]
  apply List.mem_flatMap.mpr
  refine ⟨gx - ⌊pos.x / si.cellSize⌋, mem_intRange.mpr (by omega), ?_⟩
  apply List.mem_flatMap.mpr
  refine ⟨gy - ⌊pos.y / si.cellSize⌋, mem_intRange.mpr (by omega), ?_⟩
  rw [show ⌊pos.x / si.cellSize⌋ + (gx - ⌊pos.x / si.cellSize⌋) = gx from by ring,
      show ⌊pos.y / si.cellSize⌋ + (gy - ⌊pos.y / si.cellSize⌋) = gy from by ring]
  rw [if_neg (by push_neg; exact ⟨hgx0, hgx1, hgy0, hgy1⟩)]
  exact List.mem_filter.mpr ⟨hmem, by simpa using hdist⟩

theorem insert_fst (si : SpatialIndex σ α) (item : σ) : (si.insert item).1 = true := by
  rw [SpatialIndex.insert]

/-- After `insert`, the inserted item is in the cell of its (clamped) grid
key. -/
theorem insert_mem_cell (si : SpatialIndex σ α) (item : σ) :
    item ∈ (alistGet ((si.insert item).2).grid
      (max 0 (min (si.gridWidth - 1) ⌊(itemPos item).x / si.cellSize⌋),
       max 0 (min (si.gridHeight - 1) ⌊(itemPos item).y / si.cellSize⌋))).getD [] := by
  by_cases hcond : itemId item ≠ "" ∧ ((si.findItemById (itemId item))).isSome = true
  · rw [SpatialIndex.insert, if_pos hcond]
    have hfr := remove_snd_frame si (itemId item)
    simp only [SpatialIndex.getGridKey, hfr.1, hfr.2.1, hfr.2.2.1]
    rw [alistGet_set_self]
    simp
  · rw [SpatialIndex.insert, if_neg hcond]
    simp only [SpatialIndex.getGridKey]
    rw [alistGet_set_self]
    simp

theorem qIndex0_fields :
    qIndex0.width = 800 ∧ qIndex0.height = 600 ∧ qIndex0.cellSize = 50 ∧
    qIndex0.gridWidth = 16 ∧ qIndex0.gridHeight = 12 ∧
    qIndex0.grid = [] ∧ qIndex0.queryCache = [] := by
  refine ⟨?_, ?_, ?_, ?_, ?_, rfl, rfl⟩ <;>
    · simp only [qIndex0, SpatialIndex.new]
      norm_num

end SpatialLemmas

/-! ## C2: insert followed by an immediate `query(position, 0.01)` -/

section ClaimC2

variable {σ α : Type} [LinearOrderedField α] [FloorRing α] [SpatialItem σ α]

/-- C2 (amended): when the inserted item's position lies inside the
`[0,width) × [0,height)` bounds of a consistently-dimensioned index, an
immediately following `query(position, 0.01)` with no intervening mutation
returns a list containing the item.  (The unrestricted claim fails for
positions far enough outside the bounds: `insert` clamps the grid key into
the grid while `query` skips out-of-bounds cells, see
`C2_out_of_bounds_counterexample`.) -/
theorem C2_insert_query_contains (si : SpatialIndex σ α) (item : σ)
    (hgw : si.gridWidth = ⌈si.width / si.cellSize⌉)
    (hgh : si.gridHeight = ⌈si.height / si.cellSize⌉)
    (hcell : 0 < si.cellSize)
    (hx0 : 0 ≤ (itemPos item).x) (hx1 : (itemPos item).x < si.width)
    (hy0 : 0 ≤ (itemPos item).y) (hy1 : (itemPos item).y < si.height) :
    (si.insert item).1 = true ∧
    item ∈ (((si.insert item).2).query (itemPos item) (1 / 100)).1 := by
  refine ⟨insert_fst si item, ?_⟩
  have hfr := insert_snd_frame si item
  have hgx0 : (0 : ℤ) ≤ ⌊(itemPos item).x / si.cellSize⌋ :=
    Int.floor_nonneg.mpr (div_nonneg hx0 hcell.le)
  have hgy0 : (0 : ℤ) ≤ ⌊(itemPos item).y / si.cellSize⌋ :=
    Int.floor_nonneg.mpr (div_nonneg hy0 hcell.le)
  have hgx1 : ⌊(itemPos item).x / si.cellSize⌋ < si.gridWidth := by
    rw [hgw]
    exact Int.floor_lt.mpr (lt_of_lt_of_le ((div_lt_div_iff_of_pos_right hcell).mpr hx1)
      ((div_le_iff₀ hcell).mpr (by
        have := Int.le_ceil (si.width / si.cellSize)
        calc si.width = si.width / si.cellSize * si.cellSize := by
              field_simp
          _ ≤ (⌈si.width / si.cellSize⌉ : α) * si.cellSize := by
              exact mul_le_mul_of_nonneg_right this hcell.le)))
  have hgy1 : ⌊(itemPos item).y / si.cellSize⌋ < si.gridHeight := by
    rw [hgh]
    exact Int.floor_lt.mpr (lt_of_lt_of_le ((div_lt_div_iff_of_pos_right hcell).mpr hy1)
      ((div_le_iff₀ hcell).mpr (by
        have := Int.le_ceil (si.height / si.cellSize)
        calc si.height = si.height / si.cellSize * si.cellSize := by
              field_simp
          _ ≤ (⌈si.height / si.cellSize⌉ : α) * si.cellSize := by
              exact mul_le_mul_of_nonneg_right this hcell.le)))
  have hmem := insert_mem_cell si item
  rw [show max 0 (min (si.gridWidth - 1) ⌊(itemPos item).x / si.cellSize⌋) =
        ⌊(itemPos item).x / si.cellSize⌋ from by omega,
      show max 0 (min (si.gridHeight - 1) ⌊(itemPos item).y / si.cellSize⌋) =
        ⌊(itemPos item).y / si.cellSize⌋ from by omega] at hmem
  have hr0 : (0 : α) ≤ 1 / 100 := by norm_num
  have hceil : (0 : ℤ) ≤ ⌈(1 / 100 : α) / si.cellSize⌉ :=
    Int.ceil_nonneg (div_nonneg hr0 hcell.le)
  apply mem_query_of_cell ((si.insert item).2) (itemPos item) (1 / 100) item
      ⌊(itemPos item).x / si.cellSize⌋ ⌊(itemPos item).y / si.cellSize⌋ hr0
      (insert_snd_queryCache si item) hmem
  · exact hgx0
  · rw [hfr.2.1]; exact hgx1
  · exact hgy0
  · rw [hfr.2.2.1]; exact hgy1
  · rw [hfr.1]; constructor <;> omega
  · rw [hfr.1]; constructor <;> omega
  · have : dist2 (itemPos item) (itemPos item) = 0 := by
      simp [dist2]
    rw [this]
    positivity

end ClaimC2

section SpatialClaims

variable {σ α : Type} [LinearOrderedField α] [FloorRing α] [SpatialItem σ α]

theorem itemPos_qItem (it : QItem) : itemPos it = it.position := rfl

theorem itemId_qItem (it : QItem) : itemId it = it.id := rfl

/-- Witness for `C2_insert_query_contains` at the concrete index and an
in-bounds item. -/
theorem C2_insert_query_contains_witness :
    (qIndex0.insert aItem).1 = true ∧
    aItem ∈ ((qIndex0.insert aItem).2.query (itemPos aItem) (1 / 100)).1 := by
  obtain ⟨h1, h2, h3, h4, h5, -, -⟩ := qIndex0_fields
  exact C2_insert_query_contains qIndex0 aItem
    (by rw [h1, h3, h4]; norm_num)
    (by rw [h2, h3, h5]; norm_num)
    (by rw [h3]; norm_num)
    (by rw [itemPos_qItem]; show (0 : ℚ) ≤ 100; norm_num)
    (by rw [itemPos_qItem, h1]; show (100 : ℚ) < 800; norm_num)
    (by rw [itemPos_qItem]; show (0 : ℚ) ≤ 10; norm_num)
    (by rw [itemPos_qItem, h2]; show (10 : ℚ) < 600; norm_num)

/-- C2 counterexample: a successfully inserted item whose position lies far
outside the bounds is NOT returned by the immediately following
`query(position, 0.01)`: `insert` clamps `(900, 10)` into the edge cell
`(15, 0)` while `query` scans the out-of-bounds cells `17..19 × -1..1` and
skips them all, returning `[]`. -/
theorem C2_out_of_bounds_counterexample :
    (qIndex0.insert wItem).1 = true ∧
    wItem ∉ ((qIndex0.insert wItem).2.query (itemPos wItem) (1 / 100)).1 := by
  obtain ⟨-, -, h3, h4, -, -, -⟩ := qIndex0_fields
  refine ⟨insert_fst qIndex0 wItem, ?_⟩
  have hfr := insert_snd_frame qIndex0 wItem
  have hq : ((qIndex0.insert wItem).2.query (itemPos wItem) (1 / 100)).1 = [] := by
    apply query_eq_nil_right_out
    · norm_num
    · exact insert_snd_queryCache qIndex0 wItem
    · rw [hfr.1, hfr.2.1, h3, h4, itemPos_qItem]
      show (16 : ℤ) ≤ ⌊(900 : ℚ) / 50⌋ - ⌈(1 / 100 : ℚ) / 50⌉
      rw [show ⌈(1 / 100 : ℚ) / 50⌉ = 1 from by rw [Int.ceil_eq_iff] <;> norm_num]
      norm_num
  rw [hq]
  simp

/-- Invariant of the `findNearest` scan loop: the accumulator is either left
untouched (nothing in the list strictly improved the running minimum) or it
holds the first-encountered minimal item of the list. -/
theorem foldl_nearest_spec (pos : P2 α) (l : List σ) :
    ∀ acc : Option σ × α,
      (l.foldl (fun acc it =>
          if dist2 (itemPos it) pos < acc.2 then (some it, dist2 (itemPos it) pos)
          else acc) acc = acc ∧
        ∀ c ∈ l, acc.2 ≤ dist2 (itemPos c) pos) ∨
      (∃ n ∈ l,
        l.foldl (fun acc it =>
          if dist2 (itemPos it) pos < acc.2 then (some it, dist2 (itemPos it) pos)
          else acc) acc = (some n, dist2 (itemPos n) pos) ∧
        dist2 (itemPos n) pos < acc.2 ∧
        ∀ c ∈ l, dist2 (itemPos n) pos ≤ dist2 (itemPos c) pos) := by
  induction l with
  | nil => intro acc; left; exact ⟨rfl, by simp⟩
  | cons it tl ih =>
    intro acc
    rw [List.foldl_cons]
    by_cases hd : dist2 (itemPos it) pos < acc.2
    · rw [if_pos hd]
      rcases ih (some it, dist2 (itemPos it) pos) with ⟨heq, hall⟩ | ⟨n, hn, heq, hlt, hmin⟩
      · right
        refine ⟨it, List.mem_cons_self it tl, heq, hd, ?_⟩
        intro c hc
        rcases List.mem_cons.mp hc with rfl | hc
        · exact le_refl _
        · exact hall c hc
      · right
        refine ⟨n, List.mem_cons_of_mem it hn, heq, lt_trans hlt hd, ?_⟩
        intro c hc
        rcases List.mem_cons.mp hc with rfl | hc
        · exact le_of_lt hlt
        · exact hmin c hc
    · rw [if_neg hd]
      rcases ih acc with ⟨heq, hall⟩ | ⟨n, hn, heq, hlt, hmin⟩
      · left
        refine ⟨heq, ?_⟩
        intro c hc
        rcases List.mem_cons.mp hc with rfl | hc
        · exact not_lt.mp hd
        · exact hall c hc
      · right
        refine ⟨n, List.mem_cons_of_mem it hn, heq, hlt, ?_⟩
        intro c hc
        rcases List.mem_cons.mp hc with rfl | hc
        · exact le_of_lt (lt_of_lt_of_le hlt (not_lt.mp hd))
        · exact hmin c hc

/-- C5 (amended): `findNearest(position, maxDistance)` performs a single
radius query with radius `min(maxDistance, max(cellSize, 50))` — it does not
expand the search up to `maxDistance` — and returns the (first) closest
candidate of that one query whose distance is strictly below `maxDistance`,
or `none` when that query has no such candidate.  It can therefore miss
indexed items lying within `maxDistance` but beyond the single query radius
(`C5_counterexample`). -/
theorem C5_findNearest_characterization (si : SpatialIndex σ α) (pos : P2 α)
    (maxDistance : α) :
    ((si.findNearest pos maxDistance).1 = none ∧
      ∀ c ∈ (si.query pos (min maxDistance (max si.cellSize 50))).1,
        maxDistance ^ 2 ≤ dist2 (itemPos c) pos) ∨
    (∃ n ∈ (si.query pos (min maxDistance (max si.cellSize 50))).1,
      (si.findNearest pos maxDistance).1 = some n ∧
      dist2 (itemPos n) pos < maxDistance ^ 2 ∧
      ∀ c ∈ (si.query pos (min maxDistance (max si.cellSize 50))).1,
        dist2 (itemPos n) pos ≤ dist2 (itemPos c) pos) := by
  unfold SpatialIndex.findNearest
  rcases foldl_nearest_spec pos
      ((si.query pos (min maxDistance (max si.cellSize 50))).1)
      ((none : Option σ), maxDistance ^ 2) with ⟨heq, hall⟩ | ⟨n, hn, heq, hlt, hmin⟩
  · left
    constructor
    · simp only [heq]
    · exact hall
  · right
    refine ⟨n, hn, ?_, hlt, hmin⟩
    simp only [heq]

/-- C5 counterexample: with the engine's `800 × 600 × 50` index holding a
single item 60 units away, `findNearest(position, 100)` returns `none` even
though the item lies within `maxDistance = 100`: the single query radius is
`min(100, max(50, 50)) = 50 < 60`, and no expansion happens. -/
theorem C5_counterexample :
    dist2 (itemPos pItem) ⟨260, 100⟩ ≤ 100 ^ 2 ∧
    pItem ∈ (alistGet ((qIndex0.insert pItem).2).grid
      (((qIndex0.insert pItem).2).getGridKey 200 100)).getD [] ∧
    (((qIndex0.insert pItem).2).findNearest ⟨260, 100⟩ 100).1 = none := by
  obtain ⟨-, -, h3, h4, h5, hg, -⟩ := qIndex0_fields
  have hfr := insert_snd_frame qIndex0 pItem
  have hgrid : ((qIndex0.insert pItem).2).grid =
      [((qIndex0.getGridKey 200 100), [pItem])] := by
    rw [SpatialIndex.insert, if_neg (by
      simp [SpatialIndex.findItemById, hg])]
    simp [alistSet, alistHas, alistGet, hg, itemPos_qItem, pItem]
  refine ⟨by rw [itemPos_qItem]; show ((200:ℚ)-260)^2 + ((100:ℚ)-100)^2 ≤ 100^2; norm_num, ?_, ?_⟩
  · have hkey : ((qIndex0.insert pItem).2).getGridKey 200 100 =
        qIndex0.getGridKey 200 100 := by
      unfold SpatialIndex.getGridKey
      rw [hfr.1, hfr.2.1, hfr.2.2.1]
    rw [hkey, hgrid]
    simp [alistGet]
  · have hrad : min (100 : ℚ) (max ((qIndex0.insert pItem).2).cellSize 50) = 50 := by
      rw [hfr.1, h3]
      norm_num
    have hq : (((qIndex0.insert pItem).2).query ⟨260, 100⟩ 50).1 = [] := by
      apply query_eq_nil_of_far
      · norm_num
      · exact insert_snd_queryCache qIndex0 pItem
      · intro cell hcell x hx
        rw [hgrid] at hcell
        rcases List.mem_singleton.mp hcell with rfl
        rcases List.mem_singleton.mp hx with rfl
        rw [itemPos_qItem]
        show (50 : ℚ) ^ 2 < ((200:ℚ)-260)^2 + ((100:ℚ)-100)^2
        norm_num
    have hstep : ((((qIndex0.insert pItem).2)).findNearest ⟨260, 100⟩ 100).1 =
        ((((qIndex0.insert pItem).2).query ⟨260, 100⟩
            (min 100 (max ((qIndex0.insert pItem).2).cellSize 50))).1.foldl
          (fun acc it => if dist2 (itemPos it) ⟨260, 100⟩ < acc.2
            then (some it, dist2 (itemPos it) ⟨260, 100⟩) else acc)
          ((none : Option QItem), (100 : ℚ) ^ 2)).1 := rfl
    rw [hstep, hrad, hq]
    rfl

/-- Helper: `⌊u⌋ - ⌊v⌋ ≤ ⌈r⌉` whenever `u - v ≤ r`. -/
theorem floor_sub_floor_le_ceil {u v r : α} (h : u - v ≤ r) : ⌊u⌋ - ⌊v⌋ ≤ ⌈r⌉ := by
  have h2 : ⌊u⌋ ≤ ⌊v + r⌋ := Int.floor_le_floor (by linarith)
  have h3 : ⌊v + r⌋ ≤ ⌊v + (⌈r⌉ : α)⌋ := Int.floor_le_floor (by linarith [Int.le_ceil r])
  rw [Int.floor_add_int] at h3
  omega

/-- C9 (amended): every successful mutation — `insert` returning `true`,
`remove` of a present id, a successful `update`, and `clear` — empties the
entire query cache; and the claim's scenario holds for in-bounds data: after
a query whose result was the empty list (and got cached), inserting an
in-bounds item within the queried radius changes the next identical query's
result, which now contains the item.  (An insertion clamped from out of
bounds does NOT change the next identical query, see
`C9_counterexample`.) -/
theorem C9_mutation_invalidates_cache :
    (∀ (si : SpatialIndex σ α) (item : σ) (si' : SpatialIndex σ α),
      si.insert item = (true, si') → si'.queryCache = []) ∧
    (∀ (si : SpatialIndex σ α) (anId : String) (si' : SpatialIndex σ α),
      si.remove anId = (true, si') → si'.queryCache = []) ∧
    (∀ (si : SpatialIndex σ α) (item : σ) (si' : SpatialIndex σ α),
      si.update item = (true, si') → si'.queryCache = []) ∧
    (∀ si : SpatialIndex σ α, (si.clear).queryCache = []) ∧
    (∀ (si : SpatialIndex σ α) (item : σ) (pos : P2 α) (radius : α),
      si.gridWidth = ⌈si.width / si.cellSize⌉ →
      si.gridHeight = ⌈si.height / si.cellSize⌉ →
      0 < si.cellSize → 0 ≤ radius →
      0 ≤ (itemPos item).x → (itemPos item).x < si.width →
      0 ≤ (itemPos item).y → (itemPos item).y < si.height →
      dist2 (itemPos item) pos ≤ radius ^ 2 →
      (si.query pos radius).1 = [] →
      item ∈ (((si.query pos radius).2.insert item).2.query pos radius).1 ∧
      (((si.query pos radius).2.insert item).2.query pos radius).1 ≠
        (si.query pos radius).1) := by
  refine ⟨?_, ?_, ?_, fun si => rfl, ?_⟩
  · intro si item si' h
    have := insert_snd_queryCache si item
    rwa [congrArg Prod.snd h] at this
  · intro si anId si' h
    rw [SpatialIndex.remove] at h
    split at h
    · injection h with h1 h2
      rw [← h2]
    · injection h with h1 h2
      simp at h1
  · intro si item si' h
    rw [SpatialIndex.update] at h
    split at h
    · exact absurd (congrArg Prod.fst h) (by simp)
    · have := insert_snd_queryCache ((si.remove (itemId item)).2) item
      rwa [congrArg Prod.snd h] at this
  · intro si item pos radius hgw hgh hcell hr0 hx0 hx1 hy0 hy1 hdist hempty
    have hqf := query_snd_frame si pos radius
    set si1 := (si.query pos radius).2 with hsi1
    have hfr := insert_snd_frame si1 item
    -- the inserted item's (unclamped, in-bounds) cell
    have hgx0 : (0 : ℤ) ≤ ⌊(itemPos item).x / si.cellSize⌋ :=
      Int.floor_nonneg.mpr (div_nonneg hx0 hcell.le)
    have hgy0 : (0 : ℤ) ≤ ⌊(itemPos item).y / si.cellSize⌋ :=
      Int.floor_nonneg.mpr (div_nonneg hy0 hcell.le)
    have hgx1 : ⌊(itemPos item).x / si.cellSize⌋ < si.gridWidth := by
      rw [hgw]
      refine Int.floor_lt.mpr (lt_of_lt_of_le ((div_lt_div_iff_of_pos_right hcell).mpr hx1) ?_)
      rw [div_le_iff₀ hcell]
      calc si.width = si.width / si.cellSize * si.cellSize := by field_simp
        _ ≤ (⌈si.width / si.cellSize⌉ : α) * si.cellSize :=
            mul_le_mul_of_nonneg_right (Int.le_ceil _) hcell.le
    have hgy1 : ⌊(itemPos item).y / si.cellSize⌋ < si.gridHeight := by
      rw [hgh]
      refine Int.floor_lt.mpr (lt_of_lt_of_le ((div_lt_div_iff_of_pos_right hcell).mpr hy1) ?_)
      rw [div_le_iff₀ hcell]
      calc si.height = si.height / si.cellSize * si.cellSize := by field_simp
        _ ≤ (⌈si.height / si.cellSize⌉ : α) * si.cellSize :=
            mul_le_mul_of_nonneg_right (Int.le_ceil _) hcell.le
    -- componentwise distance bounds
    have hdist' : ((itemPos item).x - pos.x) ^ 2 + ((itemPos item).y - pos.y) ^ 2 ≤
        radius ^ 2 := by simpa [dist2] using hdist
    have habsx : |(itemPos item).x - pos.x| ≤ radius :=
      abs_le_of_sq_le_sq (by nlinarith [sq_nonneg ((itemPos item).y - pos.y)]) hr0
    have habsy : |(itemPos item).y - pos.y| ≤ radius :=
      abs_le_of_sq_le_sq (by nlinarith [sq_nonneg ((itemPos item).x - pos.x)]) hr0
    have hwinx1 : ⌊(itemPos item).x / si.cellSize⌋ - ⌊pos.x / si.cellSize⌋ ≤
        ⌈radius / si.cellSize⌉ := by
      apply floor_sub_floor_le_ceil
      rw [div_sub_div_same]
      exact (div_le_div_iff_of_pos_right hcell).mpr (by
        have := abs_le.mp habsx
        linarith [this.2])
    have hwinx2 : ⌊pos.x / si.cellSize⌋ - ⌊(itemPos item).x / si.cellSize⌋ ≤
        ⌈radius / si.cellSize⌉ := by
      apply floor_sub_floor_le_ceil
      rw [div_sub_div_same]
      exact (div_le_div_iff_of_pos_right hcell).mpr (by
        have := abs_le.mp habsx
        linarith [this.1])
    have hwiny1 : ⌊(itemPos item).y / si.cellSize⌋ - ⌊pos.y / si.cellSize⌋ ≤
        ⌈radius / si.cellSize⌉ := by
      apply floor_sub_floor_le_ceil
      rw [div_sub_div_same]
      exact (div_le_div_iff_of_pos_right hcell).mpr (by
        have := abs_le.mp habsy
        linarith [(abs_le.mp habsy).2])
    have hwiny2 : ⌊pos.y / si.cellSize⌋ - ⌊(itemPos item).y / si.cellSize⌋ ≤
        ⌈radius / si.cellSize⌉ := by
      apply floor_sub_floor_le_ceil
      rw [div_sub_div_same]
      exact (div_le_div_iff_of_pos_right hcell).mpr (by
        have := abs_le.mp habsy
        linarith [(abs_le.mp habsy).1])
    -- the item sits in that cell after the insert
    have hmem := insert_mem_cell si1 item
    rw [show max 0 (min (si1.gridWidth - 1) ⌊(itemPos item).x / si1.cellSize⌋) =
          ⌊(itemPos item).x / si.cellSize⌋ from by
        rw [hqf.2.1, hqf.2.2.1]; omega,
        show max 0 (min (si1.gridHeight - 1) ⌊(itemPos item).y / si1.cellSize⌋) =
          ⌊(itemPos item).y / si.cellSize⌋ from by
        rw [hqf.2.1, hqf.2.2.2.1]; omega] at hmem
    have hmemq : item ∈ ((si1.insert item).2.query pos radius).1 := by
      apply mem_query_of_cell ((si1.insert item).2) pos radius item
          ⌊(itemPos item).x / si.cellSize⌋ ⌊(itemPos item).y / si.cellSize⌋ hr0
          (insert_snd_queryCache si1 item) hmem
      · exact hgx0
      · rw [hfr.2.1, hqf.2.2.1]; exact hgx1
      · exact hgy0
      · rw [hfr.2.2.1, hqf.2.2.2.1]; exact hgy1
      · rw [hfr.1, hqf.2.1]; exact ⟨hwinx1, hwinx2⟩
      · rw [hfr.1, hqf.2.1]; exact ⟨hwiny1, hwiny2⟩
      · exact hdist
    refine ⟨hmemq, ?_⟩
    rw [hempty]
    intro hcontra
    rw [hcontra] at hmemq
    simp at hmemq

/-- A query over an empty grid finds nothing. -/
theorem query_empty_grid (si : SpatialIndex σ α) (pos : P2 α) (radius : α)
    (h0 : 0 ≤ radius) (hc : si.queryCache = []) (hg : si.grid = []) :
    (si.query pos radius).1 = [] := by
  rw [query_fst_of_cache_empty si pos radius h0 hc]
  rw [List.flatMap_eq_nil_iff]
  intro dx _
  rw [List.flatMap_eq_nil_iff]
  intro dy _
  split
  · rfl
  · rw [hg]
    rfl

/-- Witness for `C9_mutation_invalidates_cache` at concrete inputs: the
empty-list branch uses the in-bounds item `aItem = ("a", (100, 10))` and an
identical query at `(101, 11)` with radius `30`. -/
theorem C9_mutation_invalidates_cache_witness :
    ((qIndex0.insert aItem).2.queryCache = []) ∧
    ((qIndex0.clear : SpatialIndex QItem ℚ).queryCache = []) ∧
    aItem ∈ (((qIndex0.query ⟨101, 11⟩ 30).2.insert aItem).2.query ⟨101, 11⟩ 30).1 := by
  obtain ⟨h1, h2, h3, h4, h5, hg, hqc⟩ := qIndex0_fields
  have hC9 := @C9_mutation_invalidates_cache QItem ℚ _ _ _
  refine ⟨?_, hC9.2.2.2.1 qIndex0, ?_⟩
  · exact hC9.1 qIndex0 aItem (qIndex0.insert aItem).2 (by rw [SpatialIndex.insert])
  · refine (hC9.2.2.2.2 qIndex0 aItem ⟨101, 11⟩ 30
      (by rw [h1, h3, h4]; norm_num)
      (by rw [h2, h3, h5]; norm_num)
      (by rw [h3]; norm_num)
      (by norm_num)
      (by rw [itemPos_qItem]; show (0 : ℚ) ≤ 100; norm_num)
      (by rw [itemPos_qItem, h1]; show (100 : ℚ) < 800; norm_num)
      (by rw [itemPos_qItem]; show (0 : ℚ) ≤ 10; norm_num)
      (by rw [itemPos_qItem, h2]; show (10 : ℚ) < 600; norm_num)
      (by rw [itemPos_qItem]; show ((100:ℚ)-101)^2 + ((10:ℚ)-11)^2 ≤ 30 ^ 2; norm_num)
      (query_empty_grid qIndex0 ⟨101, 11⟩ 30 (by norm_num) hqc hg)).1

/-- C9 counterexample to the claim's universally-stated scenario: the query
at `(880, 10)` with radius `30` returns `[]`; inserting `("n", (890, 10))` —
within that radius but beyond the right edge, so its grid key is clamped —
is a successful mutation, yet the next identical query still returns `[]`
(the scan skips the out-of-bounds cells), so the result does NOT change. -/
theorem C9_counterexample :
    (qIndex0.query ⟨880, 10⟩ 30).1 = [] ∧
    ((qIndex0.query ⟨880, 10⟩ 30).2.insert nItem).1 = true ∧
    dist2 (itemPos nItem) ⟨880, 10⟩ ≤ 30 ^ 2 ∧
    (((qIndex0.query ⟨880, 10⟩ 30).2.insert nItem).2.query ⟨880, 10⟩ 30).1 =
      (qIndex0.query ⟨880, 10⟩ 30).1 := by
  obtain ⟨-, -, h3, h4, -, -, hqc⟩ := qIndex0_fields
  have hqf := query_snd_frame qIndex0 (⟨880, 10⟩ : P2 ℚ) 30
  have hfr := insert_snd_frame ((qIndex0.query ⟨880, 10⟩ 30).2) nItem
  have hbound : (16 : ℤ) ≤ ⌊(880 : ℚ) / 50⌋ - ⌈(30 : ℚ) / 50⌉ := by
    rw [show ⌈(30 : ℚ) / 50⌉ = 1 from by rw [Int.ceil_eq_iff] <;> norm_num]
    norm_num
  have hq1 : (qIndex0.query ⟨880, 10⟩ 30).1 = [] := by
    apply query_eq_nil_right_out
    · norm_num
    · exact hqc
    · rw [h3, h4]; exact hbound
  refine ⟨hq1, insert_fst _ _, ?_, ?_⟩
  · rw [itemPos_qItem]
    show ((890:ℚ)-880)^2 + ((10:ℚ)-10)^2 ≤ 30 ^ 2
    norm_num
  · rw [hq1]
    apply query_eq_nil_right_out
    · norm_num
    · exact insert_snd_queryCache _ _
    · rw [hfr.1, hfr.2.1, hqf.2.1, hqf.2.2.1, h3, h4]
      exact hbound

end SpatialClaims

open OrganicLayout

/-! ## C4: getSemanticDistance range / default / symmetry -/

/-- C4: on any semantic field whose recorded strengths all lie in `[0, 1]`,
`getSemanticDistance` lies in `[0, 1]`; and it returns the default distance
`1` whenever the directed pair is not recorded (source word missing, or
target word missing under the source word).  The claim's symmetry part is
refuted separately: `addSemanticConnection` records one direction only. -/
theorem C4_semanticDistance_range_default (sf : SemanticField) (a b : String)
    (hr : ∀ w ws, alistGet sf.semanticGraph w = some ws →
      ∀ v st, alistGet ws v = some st → 0 ≤ st ∧ st ≤ 1) :
    (0 ≤ sf.getSemanticDistance a b ∧ sf.getSemanticDistance a b ≤ 1) ∧
    (∀ ws, alistGet sf.semanticGraph a = some ws → alistGet ws b = none →
      sf.getSemanticDistance a b = 1) ∧
    (alistGet sf.semanticGraph a = none → sf.getSemanticDistance a b = 1) := by
  refine ⟨?_, ?_, ?_⟩
  · unfold SemanticField.getSemanticDistance
    split
    · rename_i connections hga
      split
      · rename_i st hgb
        obtain ⟨h0, h1⟩ := hr a connections hga b st hgb
        constructor <;> linarith
      · norm_num
    · norm_num
  · intro ws hga hgb
    unfold SemanticField.getSemanticDistance
    simp only [hga, hgb]
  · intro hga
    unfold SemanticField.getSemanticDistance
    simp only [hga]

/-- C4 witness: the range theorem applied to the initial (empty) field. -/
theorem C4_semanticDistance_range_default_witness :
    0 ≤ SemanticField.init.getSemanticDistance "a" "b" ∧
      SemanticField.init.getSemanticDistance "a" "b" ≤ 1 :=
  (C4_semanticDistance_range_default SemanticField.init "a" "b"
    (fun w ws h => by simp [SemanticField.init, alistGet] at h)).1

/-- C4 counterexample to symmetry: `addSemanticConnection` records only the
`word1 → word2` direction, so after recording `("A", "B", 0.5)` the distance
`A → B` is `0.5` while `B → A` stays at the default `1`. -/
theorem C4_counterexample :
    (SemanticField.init.addSemanticConnection "A" "B" (1 / 2)).getSemanticDistance
        "A" "B" = 1 / 2 ∧
    (SemanticField.init.addSemanticConnection "A" "B" (1 / 2)).getSemanticDistance
        "B" "A" = 1 := by
  constructor <;>
    norm_num [SemanticField.init, SemanticField.addSemanticConnection,
      SemanticField.getSemanticDistance, alistGet, alistHas, alistSet, List.find?,
      show decide ("A" = "B") = false from rfl,
      show decide ("B" = "A") = false from rfl]

/-! ## C6: child energy and generation -/

/-- The energy decay never drops below its floor `0.1`. -/
theorem calculateEnergyDecay_ge (s : OrganicLayout) (node : Node)
    (nearbyNodes : List Node) :
    1 / 10 ≤ calculateEnergyDecay s node nearbyNodes := by
  simp only [calculateEnergyDecay]
  exact le_max_left _ _

/-- C6: both node constructors of the growth tick — `mkGrowthChild` for the
extension step and `mkSemanticBranchNode` for the probabilistic/avoidance
branches (avoidance delegates to `createSemanticBranch`) — produce a child
whose generation is the parent's plus one; the extension child's energy is
unconditionally at most the parent's (the decay is clamped to at least
`0.1`), and the branch child's energy (`0.8 ×` parent) is at most the
parent's whenever the parent's energy is nonnegative (guaranteed in a tick:
nodes with energy `≤ 0` are skipped before branching). -/
theorem C6_child_energy_generation (s : OrganicLayout) (node parentNode : Node)
    (nearbyNodes : List Node) (curvedDir bestDirection : V2 ℝ)
    (curvature maxInterest : ℝ) (tl tl' : TemporalLayer)
    (hE : 0 ≤ parentNode.energy) :
    ((mkGrowthChild s node nearbyNodes curvedDir curvature tl).energy ≤ node.energy ∧
      (mkGrowthChild s node nearbyNodes curvedDir curvature tl).generation =
        node.generation + 1) ∧
    ((mkSemanticBranchNode s parentNode bestDirection maxInterest tl').energy ≤
        parentNode.energy ∧
      (mkSemanticBranchNode s parentNode bestDirection maxInterest tl').generation =
        parentNode.generation + 1) := by
  refine ⟨⟨?_, rfl⟩, ?_, rfl⟩
  · have h := calculateEnergyDecay_ge s node nearbyNodes
    simp only [mkGrowthChild]
    linarith
  · simp only [mkSemanticBranchNode]
    nlinarith

/-- C6 witness at concrete inputs. -/
theorem C6_child_energy_generation_witness :
    (mkGrowthChild pausedState (plainNode "node_0" "a" ⟨0, 0⟩ ⟨1, 0⟩ 100) []
        ⟨1, 0⟩ 0 ⟨0, 0, "", 0⟩).energy ≤
      (plainNode "node_0" "a" ⟨0, 0⟩ ⟨1, 0⟩ 100).energy ∧
    (mkSemanticBranchNode pausedState (plainNode "node_0" "a" ⟨0, 0⟩ ⟨1, 0⟩ 100)
        ⟨1, 0⟩ 0 ⟨0, 0, "", 0⟩).generation =
      (plainNode "node_0" "a" ⟨0, 0⟩ ⟨1, 0⟩ 100).generation + 1 :=
  ⟨((C6_child_energy_generation pausedState
      (plainNode "node_0" "a" ⟨0, 0⟩ ⟨1, 0⟩ 100)
      (plainNode "node_0" "a" ⟨0, 0⟩ ⟨1, 0⟩ 100) [] ⟨1, 0⟩ ⟨1, 0⟩ 0 0
      ⟨0, 0, "", 0⟩ ⟨0, 0, "", 0⟩ (by norm_num [plainNode])).1).1,
   ((C6_child_energy_generation pausedState
      (plainNode "node_0" "a" ⟨0, 0⟩ ⟨1, 0⟩ 100)
      (plainNode "node_0" "a" ⟨0, 0⟩ ⟨1, 0⟩ 100) [] ⟨1, 0⟩ ⟨1, 0⟩ 0 0
      ⟨0, 0, "", 0⟩ ⟨0, 0, "", 0⟩ (by norm_num [plainNode])).2).2⟩

/-! ## C10: grow is a no-op when paused or when the frontier is empty -/

/-- C10: when the engine is not growing, or the frontier queue is empty,
`grow` returns the state unchanged (hence the node list, connection list,
generation counter, spatial index, trajectory, collocation fields and
emergent-pattern list are all identical) and consumes no oracle calls. -/
theorem C10_grow_noop (o : Oracle) (s : OrganicLayout) (ctr : ℕ)
    (h : ¬ s.isGrowing ∨ s.growthQueue = []) :
    grow o s ctr = (s, ctr) := by
  rw [grow]
  exact if_pos h

/-- C10 witness: a concrete paused state is returned unchanged. -/
theorem C10_grow_noop_witness : grow oracle0 pausedState 0 = (pausedState, 0) :=
  C10_grow_noop oracle0 pausedState 0 (Or.inl (by simp [pausedState]))

/-! ## C8: NaN guards in the direction computations -/

/-- `normalizeVectorF` always returns finite components: a NaN input or a
zero-magnitude input fails the `mag > 0` guard and yields `(0, 0)`. -/
theorem normalizeVectorF_num (v : JNum × JNum) :
    ∃ a b : ℝ, normalizeVectorF v = (JNum.num a, JNum.num b) := by
  obtain ⟨x, y⟩ := v
  cases x with
  | nan =>
    refine ⟨0, 0, ?_⟩
    cases y <;>
      simp [normalizeVectorF, JNum.mul, JNum.add, JNum.sqrtJ, JNum.ltJ]
  | num a =>
    cases y with
    | nan =>
      refine ⟨0, 0, ?_⟩
      simp [normalizeVectorF, JNum.mul, JNum.add, JNum.sqrtJ, JNum.ltJ]
    | num b =>
      have hnn : ¬ (a * a + b * b < 0) :=
        not_lt.mpr (add_nonneg (mul_self_nonneg a) (mul_self_nonneg b))
      by_cases h : (0 : ℝ) < Real.sqrt (a * a + b * b)
      · refine ⟨a / Real.sqrt (a * a + b * b), b / Real.sqrt (a * a + b * b), ?_⟩
        simp [normalizeVectorF, JNum.mul, JNum.add, JNum.sqrtJ, JNum.ltJ, JNum.div,
          hnn, h, ne_of_gt h]
      · refine ⟨0, 0, ?_⟩
        simp [normalizeVectorF, JNum.mul, JNum.add, JNum.sqrtJ, JNum.ltJ, hnn, h]

/-- C8: the two guarded helpers — `normalizeVector` and
`getNormalizedDirection`, whose `mag > 0` checks are false for NaN — never
emit a NaN component, for every input.  (The claim's universal statement is
refuted at `calculateGrowthDirection`, which divides by `dist` and `mag`
with no guard: see the counterexample.) -/
theorem C8_guarded_no_nan (v : JNum × JNum) (p q : P2 ℝ) :
    ¬ (normalizeVectorF v).1.isNaN ∧ ¬ (normalizeVectorF v).2.isNaN ∧
    ¬ (getNormalizedDirectionF p q).1.isNaN ∧
    ¬ (getNormalizedDirectionF p q).2.isNaN := by
  obtain ⟨a, b, hv⟩ := normalizeVectorF_num v
  obtain ⟨c, d, hp⟩ := normalizeVectorF_num
    (JNum.num (q.x - p.x), JNum.num (q.y - p.y))
  have hg : getNormalizedDirectionF p q =
      normalizeVectorF (JNum.num (q.x - p.x), JNum.num (q.y - p.y)) := rfl
  rw [hv, hg, hp]
  simp [JNum.isNaN]

/-- C8 counterexample: `calculateGrowthDirection` has no epsilon/zero guard.
For a node at the same position as a distinct-id neighbor, `dist = 0`, so
`dx / dist = 0 / 0 = NaN` inside the repulsion loop, and the unguarded final
normalization (`direction.x / magnitude`) propagates it: both output
components are NaN. -/
theorem C8_counterexample :
    calculateGrowthDirectionF (plainNode "node_0" "a" ⟨0, 0⟩ ⟨1, 0⟩ 100)
      [plainNode "node_1" "b" ⟨0, 0⟩ ⟨0, 0⟩ 100] = (JNum.nan, JNum.nan) := by
  have hstep : growthDirStep (plainNode "node_0" "a" ⟨0, 0⟩ ⟨1, 0⟩ 100)
      (JNum.num 1, JNum.num 0) (plainNode "node_1" "b" ⟨0, 0⟩ ⟨0, 0⟩ 100) =
      (JNum.nan, JNum.nan) := by
    norm_num [growthDirStep, plainNode, JNum.sub, JNum.add, JNum.mul, JNum.div,
      JNum.sqrtJ, JNum.ltJ, Real.sqrt_zero,
      show ("node_1" : String) ≠ "node_0" by decide]
  have hdir : [plainNode "node_1" "b" ⟨0, 0⟩ ⟨0, 0⟩ 100].foldl
      (growthDirStep (plainNode "node_0" "a" ⟨0, 0⟩ ⟨1, 0⟩ 100))
      (JNum.num 1, JNum.num 0) = (JNum.nan, JNum.nan) := by
    rw [List.foldl_cons, hstep, List.foldl_nil]
  have hv : ((JNum.num (plainNode "node_0" "a" ⟨0, 0⟩ ⟨1, 0⟩ 100).velocity.dx,
      JNum.num (plainNode "node_0" "a" ⟨0, 0⟩ ⟨1, 0⟩ 100).velocity.dy) :
      JNum × JNum) = (JNum.num 1, JNum.num 0) := rfl
  simp only [calculateGrowthDirectionF]
  rw [hv, hdir]
  simp [JNum.mul, JNum.add, JNum.sqrtJ, JNum.div]

/-! ## C3: node-id uniqueness across Resource Governor eviction -/

/-- `performMemoryOptimization` over the node cap: when only the node list
exceeds its cap, the surviving nodes are exactly the most recent 1000. -/
theorem performMemoryOptimization_nodes (s : OrganicLayout)
    (h1 : s.nodes.length > 1000) (h2 : ¬ s.readingTrajectory.length > 500)
    (h3 : ¬ s.collocationFields.length > 200)
    (h4 : ¬ s.emergentPatterns.length > 100) :
    (performMemoryOptimization s).nodes = s.nodes.drop (s.nodes.length - 1000) := by
  simp only [performMemoryOptimization]
  split_ifs <;> simp_all

/-- C3 counterexample (code bug): a fresh node id is `"node_" + nodes.length`
at creation time, and the Resource Governor evicts from the front of the node
list, so after an eviction the next fresh id collides with a survivor.
Concretely: in a 1001-node state with ids `node_0 … node_1000`, optimization
drops `node_0` and keeps 1000 nodes, and the next node the engine creates
gets id `node_1000` — already the id of the youngest survivor. -/
theorem C3_id_collision :
    freshNodeId (performMemoryOptimization overCapState) ∈
      (performMemoryOptimization overCapState).nodes.map Node.id := by
  have hnodes : (performMemoryOptimization overCapState).nodes =
      (List.range 1000).map (fun k =>
        plainNode ("node_" ++ toString (k + 1)) "a" ⟨0, 0⟩ ⟨0, 0⟩ 100) := by
    rw [performMemoryOptimization_nodes overCapState (by simp [overCapState])
      (by simp [overCapState, pausedState])
      (by simp [overCapState, pausedState])
      (by simp [overCapState, pausedState])]
    simp [overCapState]
  rw [freshNodeId, hnodes]
  simp only [List.length_map, List.length_range, List.map_map]
  refine List.mem_map.mpr ⟨999, List.mem_range.mpr (by norm_num), ?_⟩
  norm_num [Function.comp, plainNode]

/-! ## C7: spiral classification of 5-point windows -/

/-- `Math.atan2(0, 1) = 0`. -/
theorem atan2_zero_one : SemanticField.atan2 0 1 = 0 := by
  rw [SemanticField.atan2]
  have h1 : ({ re := 1, im := 0 } : ℂ) = 1 := by
    apply Complex.ext <;> simp
  rw [h1, Complex.arg_one]

/-- `Math.atan2` on the diagonal direction. -/
theorem atan2_diag :
    SemanticField.atan2 (Real.sqrt 2 / 2) (Real.sqrt 2 / 2) = Real.pi / 4 := by
  rw [SemanticField.atan2]
  have h : ({ re := Real.sqrt 2 / 2, im := Real.sqrt 2 / 2 } : ℂ) =
      Complex.cos ((Real.pi / 4 : ℝ) : ℂ) +
        Complex.sin ((Real.pi / 4 : ℝ) : ℂ) * Complex.I := by
    rw [← Complex.ofReal_cos, ← Complex.ofReal_sin]
    apply Complex.ext <;> simp [Real.cos_pi_div_four, Real.sin_pi_div_four]
  rw [h]
  exact Complex.arg_cos_add_sin_mul_I
    ⟨by linarith [Real.pi_pos], by linarith [Real.pi_pos]⟩

/-- `Math.atan2` straight up. -/
theorem atan2_up : SemanticField.atan2 1 0 = Real.pi / 2 := by
  rw [SemanticField.atan2]
  have h1 : ({ re := 0, im := 1 } : ℂ) = Complex.I := by
    apply Complex.ext <;> simp
  rw [h1, Complex.arg_I]

/-- `Math.atan2` on the antidiagonal direction. -/
theorem atan2_antidiag :
    SemanticField.atan2 (Real.sqrt 2 / 2) (-(Real.sqrt 2 / 2)) = 3 * Real.pi / 4 := by
  rw [SemanticField.atan2]
  have h : ({ re := -(Real.sqrt 2 / 2), im := Real.sqrt 2 / 2 } : ℂ) =
      Complex.cos ((3 * Real.pi / 4 : ℝ) : ℂ) +
        Complex.sin ((3 * Real.pi / 4 : ℝ) : ℂ) * Complex.I := by
    rw [← Complex.ofReal_cos, ← Complex.ofReal_sin]
    have hc : Real.cos (3 * Real.pi / 4) = -(Real.sqrt 2 / 2) := by
      rw [show (3 : ℝ) * Real.pi / 4 = Real.pi - Real.pi / 4 by ring,
        Real.cos_pi_sub, Real.cos_pi_div_four]
    have hsn : Real.sin (3 * Real.pi / 4) = Real.sqrt 2 / 2 := by
      rw [show (3 : ℝ) * Real.pi / 4 = Real.pi - Real.pi / 4 by ring,
        Real.sin_pi_sub, Real.sin_pi_div_four]
    apply Complex.ext <;> simp [hc, hsn]
  rw [h]
  exact Complex.arg_cos_add_sin_mul_I
    ⟨by linarith [Real.pi_pos], by linarith [Real.pi_pos]⟩

/-- The angle-difference normalization is the identity on `[-π, π]`. -/
theorem nad_of_le (d : ℝ) (h1 : ¬ d > Real.pi) (h2 : ¬ d < -Real.pi) :
    SemanticField.normalizeAngleDiff d = d := by
  rw [SemanticField.normalizeAngleDiff, if_neg h1, if_neg h2]

/-- Basic facts about `√2`. -/
theorem sqrt2_facts : 1 ≤ Real.sqrt 2 ∧ Real.sqrt 2 * Real.sqrt 2 = 2 := by
  have h := Real.mul_self_sqrt (show (0 : ℝ) ≤ 2 by norm_num)
  have h0 := Real.sqrt_nonneg 2
  exact ⟨by nlinarith, h⟩

/-- The half-circle window's accumulated turning is `3π/4`: each of the three
interior vertices turns by exactly `π/4` (the chords of the regular octagon
point at `0`, `π/4`, `π/2` and `3π/4`). -/
theorem spiralTotalAngle_halfCircle :
    SemanticField.spiralTotalAngle halfCirclePts = 3 * Real.pi / 4 := by
  obtain ⟨hs1, hs2⟩ := sqrt2_facts
  have hpi := Real.pi_pos
  rw [SemanticField.spiralTotalAngle, halfCirclePts]
  norm_num [show List.range 3 = [0, 1, 2] from rfl, List.getD]
  have habs : ¬ (|Real.sqrt 2 / 2| < 1 / 1000) := by
    rw [abs_of_nonneg (by positivity)]
    linarith
  rw [show Real.sqrt 2 - Real.sqrt 2 / 2 = Real.sqrt 2 / 2 by ring]
  rw [if_neg habs, if_neg habs, if_neg (fun hh => habs hh.1)]
  rw [atan2_diag, atan2_zero_one, atan2_up, atan2_antidiag]
  have t1 : |SemanticField.normalizeAngleDiff (Real.pi / 4 - 0)| = Real.pi / 4 := by
    rw [sub_zero, nad_of_le _ (by linarith) (by linarith),
      abs_of_nonneg (show (0 : ℝ) ≤ Real.pi / 4 by linarith)]
  have t2 : |SemanticField.normalizeAngleDiff (Real.pi / 2 - Real.pi / 4)| =
      Real.pi / 4 := by
    rw [nad_of_le _ (by linarith) (by linarith),
      abs_of_nonneg (show (0 : ℝ) ≤ Real.pi / 2 - Real.pi / 4 by linarith)]
    ring
  have t3 : |SemanticField.normalizeAngleDiff (3 * Real.pi / 4 - Real.pi / 2)| =
      Real.pi / 4 := by
    rw [nad_of_le _ (by linarith) (by linarith),
      abs_of_nonneg (show (0 : ℝ) ≤ 3 * Real.pi / 4 - Real.pi / 2 by linarith)]
    ring
  rw [t1, t2, t3]
  ring

/-- C7: a 5-point window is classified as a spiral precisely when the
accumulated absolute normalized turning angle over its non-degenerate
interior vertices exceeds π (the code's threshold is strict).  The claim's
half-circle scenario is refuted separately: a clean 5-point half-circle
accumulates only `3π/4`, not `≈ π`, because the turning is measured between
chords, not tangents. -/
theorem C7_spiral_iff (ps : List (P2 ℝ)) (h : ps.length = 5) :
    SemanticField.isSpirialPatternPositions ps ↔
      SemanticField.spiralTotalAngle ps > Real.pi := by
  rw [SemanticField.isSpirialPatternPositions, h,
    if_neg (show ¬ (5 < 3) by norm_num)]

/-- C7 witness (also the claim's straight-line scenario): a straight 5-point
trajectory accumulates no turning and is not classified as a spiral. -/
theorem C7_spiral_iff_witness :
    ¬ SemanticField.isSpirialPatternPositions
      [(⟨0, 0⟩ : P2 ℝ), ⟨1, 0⟩, ⟨2, 0⟩, ⟨3, 0⟩, ⟨4, 0⟩] := by
  have hpi := Real.pi_pos
  have htot : SemanticField.spiralTotalAngle
      [(⟨0, 0⟩ : P2 ℝ), ⟨1, 0⟩, ⟨2, 0⟩, ⟨3, 0⟩, ⟨4, 0⟩] = 0 := by
    have hz0 : |SemanticField.normalizeAngleDiff 0| = 0 := by
      rw [nad_of_le _ (by linarith) (by linarith), abs_zero]
    rw [SemanticField.spiralTotalAngle]
    norm_num [show List.range 3 = [0, 1, 2] from rfl, List.getD, hz0]
  rw [C7_spiral_iff _ (by norm_num), htot]
  linarith

/-- C7 counterexample to the half-circle scenario: the five octagon vertices
are concyclic (squared distance `(2+√2)/2` to the center `(1/2, (1+√2)/2)`),
the first and last are diametrically opposite (the center is their midpoint),
yet the window is NOT classified as a spiral: its accumulated turning is
`3π/4 ≤ π`. -/
theorem C7_counterexample :
    (∀ p ∈ halfCirclePts,
      dist2 p ⟨1 / 2, (1 + Real.sqrt 2) / 2⟩ = (2 + Real.sqrt 2) / 2) ∧
    (halfCirclePts.getD 0 ⟨0, 0⟩).x + (halfCirclePts.getD 4 ⟨0, 0⟩).x =
      2 * (1 / 2) ∧
    (halfCirclePts.getD 0 ⟨0, 0⟩).y + (halfCirclePts.getD 4 ⟨0, 0⟩).y =
      2 * ((1 + Real.sqrt 2) / 2) ∧
    ¬ SemanticField.isSpirialPatternPositions halfCirclePts := by
  obtain ⟨hs1, hs2⟩ := sqrt2_facts
  have hpi := Real.pi_pos
  refine ⟨?_, ?_, ?_, ?_⟩
  · intro p hp
    rw [halfCirclePts] at hp
    fin_cases hp <;> simp [dist2] <;> linear_combination ((1 : ℝ) / 4) * hs2
  · norm_num [halfCirclePts, List.getD]
  · rw [halfCirclePts]
    norm_num [List.getD]
    ring
  · rw [SemanticField.isSpirialPatternPositions,
      show halfCirclePts.length = 5 from by rw [halfCirclePts]; rfl,
      if_neg (show ¬ (5 < 3) by norm_num), spiralTotalAngle_halfCircle]
    linarith

/-! ## C1: the intersection invariant across a tick

Infrastructure: a tick never deletes or moves an existing node (it only
appends new nodes and extends `children` lists), and never touches the
semantic graph. -/

/-- Survival of a node's identity, position and char between node stores. -/
def keepsNodes (l l' : List Node) : Prop :=
  ∀ n ∈ l, ∃ n' ∈ l', n'.id = n.id ∧ n'.position = n.position ∧ n'.char = n.char

theorem keepsNodes_refl (l : List Node) : keepsNodes l l :=
  fun n hn => ⟨n, hn, rfl, rfl, rfl⟩

theorem keepsNodes_trans {l1 l2 l3 : List Node} (h1 : keepsNodes l1 l2)
    (h2 : keepsNodes l2 l3) : keepsNodes l1 l3 := by
  intro n hn
  obtain ⟨m, hm, him, hpm, hcm⟩ := h1 n hn
  obtain ⟨k, hk, hik, hpk, hck⟩ := h2 m hm
  exact ⟨k, hk, by rw [hik, him], by rw [hpk, hpm], by rw [hck, hcm]⟩

theorem keepsNodes_append (l t : List Node) : keepsNodes l (l ++ t) :=
  fun n hn => ⟨n, List.mem_append_left _ hn, rfl, rfl, rfl⟩

theorem keepsNodes_updChildren (l : List Node) (pid cid : String) :
    keepsNodes l (updChildren l pid cid) := by
  intro n hn
  refine ⟨if n.id = pid then { n with children := n.children ++ [cid] } else n,
    List.mem_map_of_mem _ hn, ?_, ?_, ?_⟩ <;> split <;> rfl

/-- A fold whose step preserves an observation preserves it overall. -/
theorem foldl_pres {α β γ : Type} (f : β → α → β) (g : β → γ)
    (h : ∀ acc x, g (f acc x) = g acc) :
    ∀ (l : List α) (acc : β), g (l.foldl f acc) = g acc := by
  intro l
  induction l with
  | nil => intro acc; rfl
  | cons x xs ih => intro acc; rw [List.foldl_cons, ih, h]

theorem recordReadingTrajectory_nodes (o : Oracle) (s : OrganicLayout)
    (f t : Node) (d : V2 ℝ) (c : ℕ) :
    (recordReadingTrajectory o s f t d c).1.nodes = s.nodes := rfl

theorem recordReadingTrajectory_sf (o : Oracle) (s : OrganicLayout)
    (f t : Node) (d : V2 ℝ) (c : ℕ) :
    (recordReadingTrajectory o s f t d c).1.semanticField = s.semanticField := rfl

theorem acceptNewNode_nodes (s : OrganicLayout) (node newNode : Node) (c : ℝ) :
    (acceptNewNode s node newNode c).nodes =
      updChildren (s.nodes ++ [newNode]) node.id newNode.id := rfl

theorem acceptNewNode_sf (s : OrganicLayout) (node newNode : Node) (c : ℝ) :
    (acceptNewNode s node newNode c).semanticField = s.semanticField := rfl

theorem acceptNewNode_keeps (s : OrganicLayout) (node newNode : Node) (c : ℝ) :
    keepsNodes s.nodes (acceptNewNode s node newNode c).nodes := by
  rw [acceptNewNode_nodes]
  exact keepsNodes_trans (keepsNodes_append _ _) (keepsNodes_updChildren _ _ _)

theorem createSemanticBranch_keeps (o : Oracle) (s : OrganicLayout) (p : Node)
    (nb : List Node) (c : ℕ) :
    keepsNodes s.nodes (createSemanticBranch o s p nb c).2.1.nodes := by
  simp only [createSemanticBranch]
  split
  · exact keepsNodes_refl _
  · split
    · exact keepsNodes_trans (keepsNodes_append _ _) (keepsNodes_updChildren _ _ _)
    · exact keepsNodes_refl _

theorem createSemanticBranch_sf (o : Oracle) (s : OrganicLayout) (p : Node)
    (nb : List Node) (c : ℕ) :
    (createSemanticBranch o s p nb c).2.1.semanticField = s.semanticField := by
  simp only [createSemanticBranch]
  split
  · rfl
  · split <;> rfl

theorem createSemanticAvoidanceBranch_keeps (o : Oracle) (s : OrganicLayout)
    (p : Node) (nb : List Node) (c : ℕ) :
    keepsNodes s.nodes (createSemanticAvoidanceBranch o s p nb c).2.1.nodes := by
  simp only [createSemanticAvoidanceBranch]
  split
  · exact createSemanticBranch_keeps o s p nb c
  · exact keepsNodes_refl _

theorem createSemanticAvoidanceBranch_sf (o : Oracle) (s : OrganicLayout)
    (p : Node) (nb : List Node) (c : ℕ) :
    (createSemanticAvoidanceBranch o s p nb c).2.1.semanticField = s.semanticField := by
  simp only [createSemanticAvoidanceBranch]
  split
  · exact createSemanticBranch_sf o s p nb c
  · rfl

theorem growNodeAccepted_keeps (o : Oracle) (s3 : OrganicLayout)
    (node newNode : Node) (nearbyNodes : List Node) (curvedDir : V2 ℝ)
    (queue : List Node) (ctr : ℕ) :
    keepsNodes s3.nodes
      (growNodeAccepted o s3 node newNode nearbyNodes curvedDir queue ctr).1.nodes := by
  simp only [growNodeAccepted, recordReadingTrajectory_nodes]
  split
  · exact createSemanticBranch_keeps o s3 node nearbyNodes (ctr + 1)
  · exact keepsNodes_refl _

theorem growNodeAccepted_sf (o : Oracle) (s3 : OrganicLayout)
    (node newNode : Node) (nearbyNodes : List Node) (curvedDir : V2 ℝ)
    (queue : List Node) (ctr : ℕ) :
    (growNodeAccepted o s3 node newNode nearbyNodes curvedDir queue ctr).1.semanticField =
      s3.semanticField := by
  simp only [growNodeAccepted, recordReadingTrajectory_sf]
  split
  · exact createSemanticBranch_sf o s3 node nearbyNodes (ctr + 1)
  · rfl

theorem growNodeRejected_keeps (o : Oracle) (s : OrganicLayout)
    (node newNode : Node) (nearbyNodes : List Node) (curvedDir : V2 ℝ)
    (queue : List Node) (ctr : ℕ) :
    keepsNodes s.nodes
      (growNodeRejected o s node newNode nearbyNodes curvedDir queue ctr).1.nodes := by
  simp only [growNodeRejected, recordReadingTrajectory_nodes]
  exact createSemanticAvoidanceBranch_keeps o s node nearbyNodes ctr

theorem growNodeRejected_sf (o : Oracle) (s : OrganicLayout)
    (node newNode : Node) (nearbyNodes : List Node) (curvedDir : V2 ℝ)
    (queue : List Node) (ctr : ℕ) :
    (growNodeRejected o s node newNode nearbyNodes curvedDir queue ctr).1.semanticField =
      s.semanticField := by
  simp only [growNodeRejected, recordReadingTrajectory_sf]
  exact createSemanticAvoidanceBranch_sf o s node nearbyNodes ctr

theorem simulateReadingBody_graph (o : Oracle) (sf : SemanticField)
    (node : Node) (textNodes : List Node) (c : ℕ) :
    (SemanticField.simulateReadingBody o sf node textNodes c).2.1.semanticGraph =
      sf.semanticGraph := by
  rw [SemanticField.simulateReadingBody]
  split <;> rfl

theorem growNodeFinish_keeps (o : Oracle) (s : OrganicLayout)
    (node newNode : Node) (nearbyNodes : List Node) (curvedDir : V2 ℝ)
    (curvature : ℝ) (queue : List Node) (ctr : ℕ) :
    keepsNodes s.nodes
      (growNodeFinish o s node newNode nearbyNodes curvedDir curvature
        queue ctr).1.nodes := by
  rw [growNodeFinish]
  split
  · exact keepsNodes_trans (acceptNewNode_keeps _ _ _ _)
      (growNodeAccepted_keeps _ _ _ _ _ _ _ _)
  · exact growNodeRejected_keeps _ _ _ _ _ _ _ _

theorem growNodeFinish_sf (o : Oracle) (s : OrganicLayout)
    (node newNode : Node) (nearbyNodes : List Node) (curvedDir : V2 ℝ)
    (curvature : ℝ) (queue : List Node) (ctr : ℕ) :
    (growNodeFinish o s node newNode nearbyNodes curvedDir curvature
      queue ctr).1.semanticField = s.semanticField := by
  rw [growNodeFinish]
  split
  · rw [growNodeAccepted_sf, acceptNewNode_sf]
  · rw [growNodeRejected_sf]

theorem processGrowthNode_keeps (o : Oracle) (acc : OrganicLayout × List Node × ℕ)
    (node : Node) :
    keepsNodes acc.1.nodes (processGrowthNode o acc node).1.nodes := by
  simp only [processGrowthNode]
  split
  · exact keepsNodes_refl _
  · refine keepsNodes_trans ?_ (growNodeFinish_keeps _ _ _ _ _ _ _ _ _)
    split
    · exact keepsNodes_refl _
    · exact keepsNodes_refl _

theorem processGrowthNode_graph (o : Oracle) (acc : OrganicLayout × List Node × ℕ)
    (node : Node) :
    (processGrowthNode o acc node).1.semanticField.semanticGraph =
      acc.1.semanticField.semanticGraph := by
  simp only [processGrowthNode]
  split
  · rfl
  · rw [growNodeFinish_sf]
    split
    · exact simulateReadingBody_graph _ _ _ _ _
    · exact simulateReadingBody_graph _ _ _ _ _

theorem foldl_keepsNodes (o : Oracle) (l : List Node) :
    ∀ acc : OrganicLayout × List Node × ℕ,
      keepsNodes acc.1.nodes ((l.foldl (processGrowthNode o) acc).1).nodes := by
  induction l with
  | nil => intro acc; exact keepsNodes_refl _
  | cons x xs ih =>
    intro acc
    rw [List.foldl_cons]
    exact keepsNodes_trans (processGrowthNode_keeps o acc x) (ih _)

theorem foldl_graph (o : Oracle) (l : List Node)
    (acc : OrganicLayout × List Node × ℕ) :
    ((l.foldl (processGrowthNode o) acc).1).semanticField.semanticGraph =
      acc.1.semanticField.semanticGraph :=
  foldl_pres (processGrowthNode o)
    (fun a => a.1.semanticField.semanticGraph)
    (fun a x => processGrowthNode_graph o a x) l acc

theorem updateEmergentPatterns_nodes (s : OrganicLayout) :
    (updateEmergentPatterns s).nodes = s.nodes := by
  rw [updateEmergentPatterns]
  split
  · rfl
  · rw [foldl_pres spiralStep OrganicLayout.nodes (fun a x => rfl),
      foldl_pres bridgeStep OrganicLayout.nodes (fun a x => rfl),
      foldl_pres clusterStep OrganicLayout.nodes
        (fun a x => by rw [clusterStep]; split <;> rfl)]

theorem updateEmergentPatterns_sf (s : OrganicLayout) :
    (updateEmergentPatterns s).semanticField = s.semanticField := by
  rw [updateEmergentPatterns]
  split
  · rfl
  · rw [foldl_pres spiralStep OrganicLayout.semanticField (fun a x => rfl),
      foldl_pres bridgeStep OrganicLayout.semanticField (fun a x => rfl),
      foldl_pres clusterStep OrganicLayout.semanticField
        (fun a x => by rw [clusterStep]; split <;> rfl)]

theorem performSelfReflection_nodes (o : Oracle) (s : OrganicLayout) (c : ℕ) :
    (performSelfReflection o s c).1.nodes = s.nodes := rfl

theorem performSelfReflection_sf (o : Oracle) (s : OrganicLayout) (c : ℕ) :
    (performSelfReflection o s c).1.semanticField = s.semanticField := rfl

/-- A tick never deletes or moves a node: every pre-tick node survives with
its id, position and char. -/
theorem grow_keeps (o : Oracle) (s : OrganicLayout) (ctr : ℕ) :
    keepsNodes s.nodes (grow o s ctr).1.nodes := by
  simp only [grow]
  split
  · exact keepsNodes_refl _
  · split <;>
      simp only [performSelfReflection_nodes, updateEmergentPatterns_nodes] <;>
      exact foldl_keepsNodes o s.growthQueue (s, [], ctr)

/-- A tick never touches the semantic graph. -/
theorem grow_graph (o : Oracle) (s : OrganicLayout) (ctr : ℕ) :
    (grow o s ctr).1.semanticField.semanticGraph =
      s.semanticField.semanticGraph := by
  simp only [grow]
  split
  · rfl
  · split <;>
      simp only [performSelfReflection_sf, updateEmergentPatterns_sf] <;>
      exact foldl_graph o s.growthQueue (s, [], ctr)

/-! ### The semantic analysis of the all-`"a"` text -/

theorem tokenizeGo_aSpace (r : List Char) :
    SemanticField.tokenizeGo ('a' :: ' ' :: r) [] =
      "a" :: SemanticField.tokenizeGo r [] := by
  simp [SemanticField.tokenizeGo,
    show SemanticField.isSepChar 'a' = false from rfl,
    show SemanticField.isSepChar ' ' = true from rfl,
    show String.mk ['a'] = "a" from rfl]

/-- `tokenize` of `k` copies of `"a "` followed by a final `"a"`. -/
theorem tokenize_replicate (k : ℕ) :
    SemanticField.tokenize ((List.replicate k ('a' :: [' '])).flatten ++ ['a']) =
      List.replicate (k + 1) "a" := by
  induction k with
  | zero => rfl
  | succ n ih =>
    have h2 : (List.replicate (n + 1) ('a' :: [' '])).flatten ++ ['a'] =
        'a' :: ' ' :: ((List.replicate n ('a' :: [' '])).flatten ++ ['a']) := by
      rw [List.replicate_succ, List.flatten_cons]
      simp
    rw [h2]
    show SemanticField.tokenizeGo _ [] = _
    rw [tokenizeGo_aSpace]
    rw [show SemanticField.tokenizeGo ((List.replicate n ('a' :: [' '])).flatten ++ ['a']) []
        = SemanticField.tokenize ((List.replicate n ('a' :: [' '])).flatten ++ ['a']) from rfl]
    rw [ih]
    rfl

theorem join_replicate_length (k : ℕ) :
    ((List.replicate k ('a' :: [' '])).flatten).length = 2 * k := by
  induction k with
  | zero => rfl
  | succ n ih =>
    rw [List.replicate_succ, List.flatten_cons, List.length_append, ih]
    simp only [List.length_cons, List.length_nil]
    omega

theorem jsTextC1_length : jsTextC1.length = 46225 := by
  rw [jsTextC1, List.length_append, join_replicate_length]
  norm_num

theorem charAt_jsTextC1 : charAt jsTextC1 0 = "a" := by
  rw [jsTextC1, show (23112 : ℕ) = 23111 + 1 from rfl, List.replicate_succ,
    List.flatten_cons]
  rfl

theorem simpleHash_a : SemanticField.simpleHash "a" = 97 := by
  rw [SemanticField.simpleHash, show ("a" : String).data = ['a'] from rfl]
  norm_num [SemanticField.toInt32, show ('a' : Char).toNat = 97 from rfl]

theorem sin97_ne : Real.sin 97 ≠ 0 := by
  intro h
  obtain ⟨n, hn⟩ := Real.sin_eq_zero_iff.mp h
  have hn0 : n ≠ 0 := by
    rintro rfl
    norm_num at hn
  have hπ : Real.pi = ((97 / n : ℚ) : ℝ) := by
    have hne : (n : ℝ) ≠ 0 := Int.cast_ne_zero.mpr hn0
    push_cast
    field_simp
    linarith [hn]
  exact irrational_pi ⟨97 / n, hπ.symm⟩

theorem cos194_ne : Real.cos (97 * 2) ≠ 0 := by
  intro h
  obtain ⟨k, hk⟩ := Real.cos_eq_zero_iff.mp h
  have hk0 : (2 * k + 1 : ℤ) ≠ 0 := by omega
  have hne : ((2 * k + 1 : ℤ) : ℝ) ≠ 0 := Int.cast_ne_zero.mpr hk0
  have h388 : ((2 * k + 1 : ℤ) : ℝ) * Real.pi = 388 := by
    push_cast at hk ⊢
    linear_combination -2 * hk
  have hπ : Real.pi = ((388 / (2 * k + 1) : ℚ) : ℝ) := by
    push_cast at hne ⊢
    rw [eq_div_iff hne]
    push_cast at h388
    linear_combination h388
  exact irrational_pi ⟨388 / (2 * k + 1), hπ.symm⟩

theorem embedHead_ne : (SemanticField.getWordEmbedding "a").getD 0 0 ≠ 0 := by
  have h0 : (SemanticField.getWordEmbedding "a").getD 0 0 =
      Real.sin ((SemanticField.simpleHash "a" : ℝ) * (((0 : ℕ) : ℝ) + 1)) *
        Real.cos ((SemanticField.simpleHash "a" : ℝ) * (((0 : ℕ) : ℝ) + 2)) := by
    rw [SemanticField.getWordEmbedding]
    rw [List.getD_eq_getElem _ _ (by simp), List.getElem_map, List.getElem_range]
  rw [h0, simpleHash_a]
  rw [show (((97 : ℤ) : ℝ)) * (((0 : ℕ) : ℝ) + 1) = 97 by push_cast; ring]
  rw [show (((97 : ℤ) : ℝ)) * (((0 : ℕ) : ℝ) + 2) = 97 * 2 by push_cast; ring]
  exact mul_ne_zero sin97_ne cos194_ne

theorem embedSum_pos :
    0 < ((List.range (min (SemanticField.getWordEmbedding "a").length
        (SemanticField.getWordEmbedding "a").length)).map (fun i =>
      (SemanticField.getWordEmbedding "a").getD i 0 *
        (SemanticField.getWordEmbedding "a").getD i 0)).sum := by
  have hlen : min (SemanticField.getWordEmbedding "a").length
      (SemanticField.getWordEmbedding "a").length = 50 := by
    rw [min_self, SemanticField.getWordEmbedding, List.length_map, List.length_range]
  rw [hlen, show (50 : ℕ) = 49 + 1 from rfl, List.range_succ_eq_map]
  rw [List.map_cons, List.sum_cons]
  have hrest : 0 ≤ ((List.map Nat.succ (List.range 49)).map (fun i =>
      (SemanticField.getWordEmbedding "a").getD i 0 *
        (SemanticField.getWordEmbedding "a").getD i 0)).sum := by
    apply List.sum_nonneg
    intro x hx
    obtain ⟨i, -, rfl⟩ := List.mem_map.mp hx
    exact mul_self_nonneg _
  have hhead : 0 < (SemanticField.getWordEmbedding "a").getD 0 0 *
      (SemanticField.getWordEmbedding "a").getD 0 0 :=
    mul_self_pos.mpr embedHead_ne
  linarith

/-- The cosine similarity of the `"a"` embedding with itself is exactly 1. -/
theorem sim_aa : SemanticField.calculateSemanticSimilarity
    (SemanticField.getWordEmbedding "a") (SemanticField.getWordEmbedding "a") = 1 := by
  have hpos := embedSum_pos
  rw [SemanticField.calculateSemanticSimilarity]
  rw [Real.mul_self_sqrt (le_of_lt hpos)]
  exact div_self (ne_of_gt hpos)

/-- `addSemanticConnection ("a","a",1)` maps both the empty graph and the
one-edge graph to the one-edge graph. -/
theorem addConn_aa (sf : SemanticField)
    (h : sf.semanticGraph = [] ∨ sf.semanticGraph = [("a", [("a", (1 : ℝ))])]) :
    (SemanticField.addSemanticConnection sf "a" "a" 1).semanticGraph =
      [("a", [("a", (1 : ℝ))])] := by
  rcases h with h | h <;>
    simp [SemanticField.addSemanticConnection, alistGet, alistHas, alistSet,
      List.find?, h]

theorem pairList_bounds (n : ℕ) (p : ℕ × ℕ) (hp : p ∈ SemanticField.pairList n) :
    p.1 < n ∧ p.2 < n := by
  rw [SemanticField.pairList] at hp
  obtain ⟨i, hi, hmem⟩ := List.mem_flatMap.mp hp
  obtain ⟨d, hd, rfl⟩ := List.mem_map.mp hmem
  rw [List.mem_range] at hi hd
  omega

theorem pairList_ne_nil (n : ℕ) (h : 2 ≤ n) : SemanticField.pairList n ≠ [] := by
  apply List.ne_nil_of_mem (a := ((0 : ℕ), (1 : ℕ)))
  rw [SemanticField.pairList]
  refine List.mem_flatMap.mpr ⟨0, List.mem_range.mpr (by omega), ?_⟩
  exact List.mem_map.mpr ⟨0, List.mem_range.mpr (by omega), rfl⟩

/-- Each pair step of the analysis of the all-`"a"` word list records the
`("a","a",1)` edge (similarity is exactly 1 > 0.3). -/
theorem analyzePairStep_aa (m : ℕ) (acc : SemanticField) (p : ℕ × ℕ)
    (h1 : p.1 < m) (h2 : p.2 < m)
    (hg : acc.semanticGraph = [] ∨ acc.semanticGraph = [("a", [("a", (1 : ℝ))])]) :
    (SemanticField.analyzePairStep (List.replicate m "a")
      (SemanticField.computeSemanticVectors (List.replicate m "a")) acc p).semanticGraph
      = [("a", [("a", (1 : ℝ))])] := by
  have hw : ∀ i < m, (List.replicate m "a").getD i "" = "a" := by
    intro i hi
    rw [List.getD_eq_getElem _ _ (by simpa using hi), List.getElem_replicate]
  have hv : ∀ i < m, (SemanticField.computeSemanticVectors
      (List.replicate m "a")).getD i [] = SemanticField.getWordEmbedding "a" := by
    intro i hi
    rw [SemanticField.computeSemanticVectors,
      List.getD_eq_getElem _ _ (by simpa using hi), List.getElem_map,
      List.getElem_replicate]
  rw [SemanticField.analyzePairStep]
  simp only [hw p.1 h1, hw p.2 h2, hv p.1 h1, hv p.2 h2, sim_aa]
  rw [if_pos (by norm_num)]
  exact addConn_aa acc hg

/-- The pair fold keeps (or establishes, if at least one pair remains) the
one-edge graph. -/
theorem pairsFold_graph (m : ℕ) :
    ∀ (l : List (ℕ × ℕ)), (∀ p ∈ l, p.1 < m ∧ p.2 < m) →
    ∀ acc : SemanticField,
      (acc.semanticGraph = [] ∨ acc.semanticGraph = [("a", [("a", (1 : ℝ))])]) →
      (l ≠ [] ∨ acc.semanticGraph = [("a", [("a", (1 : ℝ))])]) →
      ((l.foldl (SemanticField.analyzePairStep (List.replicate m "a")
        (SemanticField.computeSemanticVectors (List.replicate m "a"))) acc)).semanticGraph
        = [("a", [("a", (1 : ℝ))])] := by
  intro l
  induction l with
  | nil =>
    intro hb acc hg hne
    rcases hne with hne | hne
    · exact absurd rfl hne
    · exact hne
  | cons x xs ih =>
    intro hb acc hg hne
    rw [List.foldl_cons]
    have hx := hb x (List.mem_cons_self x xs)
    have hstep := analyzePairStep_aa m acc x hx.1 hx.2 hg
    exact ih (fun p hp => hb p (List.mem_cons_of_mem x hp)) _
      (Or.inr hstep) (Or.inr hstep)

/-- The bigram-collocation pass does not touch the semantic graph. -/
theorem detectCollocationPatterns_graph (sf : SemanticField) (w : List String) :
    (SemanticField.detectCollocationPatterns sf w).semanticGraph =
      sf.semanticGraph := rfl

/-- The constructor-time analysis of `jsTextC1` produces exactly the
self-edge `"a" → "a"` with strength 1. -/
theorem analyze_graph_aa :
    (SemanticField.init.analyzeSemanticStructure jsTextC1).semanticGraph =
      [("a", [("a", (1 : ℝ))])] := by
  rw [SemanticField.analyzeSemanticStructure, detectCollocationPatterns_graph]
  rw [show SemanticField.tokenize jsTextC1 = List.replicate 23113 "a" from by
    rw [jsTextC1]; exact tokenize_replicate 23112]
  rw [List.length_replicate]
  exact pairsFold_graph 23113 (SemanticField.pairList 23113)
    (fun p hp => pairList_bounds 23113 p hp) SemanticField.init
    (Or.inl rfl) (Or.inl (pairList_ne_nil 23113 (by norm_num)))

/-- `getSemanticDistance "a" "a"` on any field carrying the one-edge graph. -/
theorem gsd_of_graph (sf : SemanticField)
    (h : sf.semanticGraph = [("a", [("a", (1 : ℝ))])]) :
    sf.getSemanticDistance "a" "a" = 0 := by
  unfold SemanticField.getSemanticDistance
  rw [h]
  norm_num [alistGet, List.find?]

/-! ### The 43-seed ring of `initialize()` on `jsTextC1` -/

theorem oracle0_rand (k : ℕ) : oracle0.rand k = 0 := rfl

theorem seedCount_43 :
    max 3 (⌊Real.sqrt (jsTextC1.length : ℝ) / 5⌋).toNat = 43 := by
  rw [jsTextC1_length]
  rw [show ((46225 : ℕ) : ℝ) = 215 ^ 2 by norm_num]
  rw [Real.sqrt_sq (by norm_num : (0 : ℝ) ≤ 215)]
  rw [show (215 : ℝ) / 5 = ((43 : ℤ) : ℝ) by norm_num, Int.floor_intCast]
  rfl

/-- Each seeding step creates its seed (at the ring position, with the
text's first character and the configured initial energy). -/
theorem initSeedStep_creates (o : Oracle) (n : ℕ) (cx cy : ℝ)
    (acc : OrganicLayout × ℕ) (i : ℕ) :
    ∃ nd ∈ (initSeedStep o n cx cy acc i).1.nodes,
      nd.position = ⟨cx + Real.cos ((i : ℝ) / (n : ℝ) * (Real.pi * 2)) *
          (100 + o.rand acc.2 * 50),
        cy + Real.sin ((i : ℝ) / (n : ℝ) * (Real.pi * 2)) *
          (100 + o.rand acc.2 * 50)⟩ ∧
      nd.char = charAt acc.1.text 0 ∧ nd.energy = acc.1.params.initialEnergy :=
  ⟨_, List.mem_append_right _ (List.mem_singleton_self _), rfl, rfl, rfl⟩

/-- The seeding fold only appends nodes. -/
theorem initFold_mem_mono (o : Oracle) (n : ℕ) (cx cy : ℝ) :
    ∀ (l : List ℕ) (acc : OrganicLayout × ℕ) (nd : Node),
      nd ∈ acc.1.nodes → nd ∈ ((l.foldl (initSeedStep o n cx cy) acc).1).nodes := by
  intro l
  induction l with
  | nil => intro acc nd h; exact h
  | cons x xs ih =>
    intro acc nd h
    rw [List.foldl_cons]
    exact ih _ nd (List.mem_append_left _ h)

/-- With the all-zero oracle every seed of the fold ends up in the node
store at ring radius exactly 100. -/
theorem initFold_mem_oracle0 (n : ℕ) (cx cy : ℝ) :
    ∀ (l : List ℕ) (acc : OrganicLayout × ℕ), ∀ i ∈ l,
      ∃ nd ∈ ((l.foldl (initSeedStep oracle0 n cx cy) acc).1).nodes,
        nd.position = ⟨cx + Real.cos ((i : ℝ) / (n : ℝ) * (Real.pi * 2)) * 100,
                       cy + Real.sin ((i : ℝ) / (n : ℝ) * (Real.pi * 2)) * 100⟩ ∧
        nd.char = charAt acc.1.text 0 ∧ nd.energy = acc.1.params.initialEnergy := by
  intro l
  induction l with
  | nil => intro acc i hi; exact absurd hi (List.not_mem_nil i)
  | cons x xs ih =>
    intro acc i hi
    rw [List.foldl_cons]
    rcases List.mem_cons.mp hi with rfl | hi'
    · obtain ⟨nd, hmem, hpos, hchar, hen⟩ := initSeedStep_creates oracle0 n cx cy acc i
      refine ⟨nd, initFold_mem_mono oracle0 n cx cy xs _ nd hmem, ?_, hchar, hen⟩
      rw [hpos, oracle0_rand]
      norm_num
    · obtain ⟨nd, hmem, hpos, hchar, hen⟩ := ih (initSeedStep oracle0 n cx cy acc x) i hi'
      exact ⟨nd, hmem, hpos, hchar, hen⟩

/-- The seeding fold keeps a nonempty frontier queue nonempty. -/
theorem initFold_queue_ne (o : Oracle) (n : ℕ) (cx cy : ℝ) :
    ∀ (l : List ℕ) (acc : OrganicLayout × ℕ), acc.1.growthQueue ≠ [] →
      ((l.foldl (initSeedStep o n cx cy) acc).1).growthQueue ≠ [] := by
  intro l
  induction l with
  | nil => intro acc h; exact h
  | cons x xs ih =>
    intro acc h
    rw [List.foldl_cons]
    exact ih _ (List.append_ne_nil_of_right_ne_nil _ (by simp))

/-- `initialize()` on the constructed state is the 43-step seeding fold. -/
theorem c1Init_eq : c1Init = (List.range 43).foldl
    (initSeedStep oracle0 43 (c1State0.canvasWidth / 2) (c1State0.canvasHeight / 2))
    (c1State0, 1) := by
  rw [c1Init, initializeEngine]
  rw [show c1State0.text = jsTextC1 from rfl]
  rw [seedCount_43]

/-- The seeding fold never touches the semantic field. -/
theorem c1Init_sf : c1Init.1.semanticField = c1State0.semanticField := by
  rw [c1Init_eq]
  exact foldl_pres
    (initSeedStep oracle0 43 (c1State0.canvasWidth / 2) (c1State0.canvasHeight / 2))
    (fun a => a.1.semanticField) (fun a x => rfl) (List.range 43) (c1State0, 1)

/-- Seeds 0 and 1 of the 43-seed ring, as surviving members of the running
pre-tick state: seed 0 at `(500, 300)`, seed 1 one 43rd of a turn further
around the radius-100 ring; both carry the character `"a"`. -/
theorem c1Pre_two_seeds :
    (∃ n1 ∈ c1Pre.nodes, n1.position = ⟨500, 300⟩ ∧ n1.char = "a") ∧
    (∃ n2 ∈ c1Pre.nodes,
      n2.position = ⟨400 + Real.cos ((1 : ℝ) / 43 * (Real.pi * 2)) * 100,
                     300 + Real.sin ((1 : ℝ) / 43 * (Real.pi * 2)) * 100⟩ ∧
      n2.char = "a") := by
  have hshow : c1Pre.nodes = c1Init.1.nodes := rfl
  have h0 := initFold_mem_oracle0 43 (c1State0.canvasWidth / 2)
    (c1State0.canvasHeight / 2) (List.range 43) (c1State0, 1) 0
    (List.mem_range.mpr (by norm_num))
  have h1 := initFold_mem_oracle0 43 (c1State0.canvasWidth / 2)
    (c1State0.canvasHeight / 2) (List.range 43) (c1State0, 1) 1
    (List.mem_range.mpr (by norm_num))
  rw [hshow, c1Init_eq]
  obtain ⟨n1, hm1, hp1, hc1, -⟩ := h0
  obtain ⟨n2, hm2, hp2, hc2, -⟩ := h1
  have hcw : c1State0.canvasWidth = 800 := rfl
  have hch : c1State0.canvasHeight = 600 := rfl
  have hct : charAt (c1State0, (1 : ℕ)).1.text 0 = "a" := charAt_jsTextC1
  constructor
  · refine ⟨n1, hm1, ?_, by rw [hc1]; exact hct⟩
    rw [hp1, hcw, hch]
    norm_num [Real.cos_zero, Real.sin_zero]
  · refine ⟨n2, hm2, ?_, by rw [hc2]; exact hct⟩
    rw [hp2, hcw, hch]
    norm_num

/-- Each seeding step appends exactly one seed to the frontier queue. -/
theorem initSeedStep_queue (o : Oracle) (n : ℕ) (cx cy : ℝ)
    (acc : OrganicLayout × ℕ) (i : ℕ) :
    ∃ nd, (initSeedStep o n cx cy acc i).1.growthQueue =
      acc.1.growthQueue ++ [nd] :=
  ⟨_, rfl⟩

/-- The seeding fold grows the frontier queue by one entry per seed. -/
theorem initFold_queue_len (o : Oracle) (n : ℕ) (cx cy : ℝ) :
    ∀ (l : List ℕ) (acc : OrganicLayout × ℕ),
      ((l.foldl (initSeedStep o n cx cy) acc).1).growthQueue.length =
        acc.1.growthQueue.length + l.length := by
  intro l
  induction l with
  | nil => intro acc; rfl
  | cons x xs ih =>
    intro acc
    rw [List.foldl_cons, ih]
    obtain ⟨nd, hnd⟩ := initSeedStep_queue o n cx cy acc x
    rw [hnd, List.length_append]
    simp only [List.length_cons, List.length_nil]
    omega

/-- The running pre-tick state has a nonempty frontier. -/
theorem c1Pre_queue_ne : c1Pre.growthQueue ≠ [] := by
  show c1Init.1.growthQueue ≠ []
  rw [c1Init_eq]
  intro hnil
  have hlen := initFold_queue_len oracle0 43 (c1State0.canvasWidth / 2)
    (c1State0.canvasHeight / 2) (List.range 43) (c1State0, 1)
  rw [hnil, show (c1State0, (1 : ℕ)).1.growthQueue = ([] : List Node) from rfl]
    at hlen
  simp at hlen

/-- The post-tick semantic graph is still the one-edge graph of the
constructor-time analysis. -/
theorem c1Post_graph :
    c1Post.semanticField.semanticGraph = [("a", [("a", (1 : ℝ))])] := by
  show ((grow oracle0 c1Pre c1Init.2).1).semanticField.semanticGraph = _
  rw [grow_graph]
  rw [show c1Pre.semanticField = c1Init.1.semanticField from rfl, c1Init_sf]
  exact analyze_graph_aa

/-! ### The C1 verdict -/

theorem c1_theta_pos : 0 < (1 : ℝ) / 43 * (Real.pi * 2) := by positivity

theorem c1_theta_lt_pi : (1 : ℝ) / 43 * (Real.pi * 2) < Real.pi := by
  nlinarith [Real.pi_pos]

theorem c1_sin_pos : 0 < Real.sin ((1 : ℝ) / 43 * (Real.pi * 2)) :=
  Real.sin_pos_of_pos_of_lt_pi c1_theta_pos c1_theta_lt_pi

/-- Adjacent seeds of the 43-seed radius-100 ring are closer than 15 units:
the squared chord length is `2·100²·(1 − cos(2π/43)) ≤ 100²·(2π/43)² < 225`. -/
theorem c1_dist2_lt :
    dist2 (⟨500, 300⟩ : P2 ℝ)
      ⟨400 + Real.cos ((1 : ℝ) / 43 * (Real.pi * 2)) * 100,
       300 + Real.sin ((1 : ℝ) / 43 * (Real.pi * 2)) * 100⟩ < 225 := by
  have hπ2 : Real.pi < 3.15 := Real.pi_lt_d2
  have hπ0 : 0 < Real.pi := Real.pi_pos
  have hπsq : Real.pi ^ 2 < 10 := by nlinarith
  have hcos := Real.one_sub_sq_div_two_le_cos (x := (1 : ℝ) / 43 * (Real.pi * 2))
  have hsc := Real.sin_sq_add_cos_sq ((1 : ℝ) / 43 * (Real.pi * 2))
  show (500 - (400 + Real.cos ((1 : ℝ) / 43 * (Real.pi * 2)) * 100)) ^ 2 +
      (300 - (300 + Real.sin ((1 : ℝ) / 43 * (Real.pi * 2)) * 100)) ^ 2 < 225
  nlinarith [hcos, hsc, hπsq]

theorem c1_edist_lt15 :
    SemanticField.edist (⟨500, 300⟩ : P2 ℝ)
      ⟨400 + Real.cos ((1 : ℝ) / 43 * (Real.pi * 2)) * 100,
       300 + Real.sin ((1 : ℝ) / 43 * (Real.pi * 2)) * 100⟩ < 15 := by
  rw [SemanticField.edist]
  rw [Real.sqrt_lt' (by norm_num : (0 : ℝ) < 15)]
  have := c1_dist2_lt
  nlinarith [this]

theorem c1_edist_lt25 :
    SemanticField.edist (⟨500, 300⟩ : P2 ℝ)
      ⟨400 + Real.cos ((1 : ℝ) / 43 * (Real.pi * 2)) * 100,
       300 + Real.sin ((1 : ℝ) / 43 * (Real.pi * 2)) * 100⟩ < 25 :=
  lt_trans c1_edist_lt15 (by norm_num)

/-- C1: what the code actually guarantees is per-candidate, not pairwise:
a candidate node passes the growth test iff every node of the (single,
radius-50, possibly cache-served) neighborhood query is at least 15 units
away, and semantically near (`< 0.3`) ones are at least 25 units away.
Nothing constrains node pairs that were never each other's query neighbors —
in particular the ring seeds, which are placed without any test. -/
theorem C1_accept_characterization (sf : SemanticField) (node : Node)
    (nearbyNodes : List Node) :
    ¬ checkSemanticIntersection sf node nearbyNodes ↔
      ∀ nb ∈ nearbyNodes,
        15 ≤ SemanticField.edist node.position nb.position ∧
        (3 / 10 ≤ sf.getSemanticDistance node.char nb.char ∨
          25 ≤ SemanticField.edist node.position nb.position) := by
  rw [checkSemanticIntersection, checkIntersection]
  push_neg
  constructor
  · rintro ⟨h1, h2⟩ nb hnb
    refine ⟨h1 nb hnb, ?_⟩
    rcases lt_or_le (sf.getSemanticDistance node.char nb.char) (3 / 10) with hlt | hge
    · exact Or.inr (h2 nb hnb hlt)
    · exact Or.inl hge
  · intro h
    refine ⟨fun nb hnb => (h nb hnb).1, fun nb hnb hlt => ?_⟩
    rcases (h nb hnb).2 with hsem | hd
    · exact absurd hlt (not_lt.mpr hsem)
    · exact hd

/-- C1 counterexample: a genuine engine run — `new OrganicLayout` on a
46225-character text, `initialize()`, `start()`, one completed `grow()`
tick (the engine was growing and the frontier was nonempty) — whose
post-tick state contains two distinct surviving nodes that are both within
15 units of each other AND semantically near (distance 0 < 0.3) within 25
units: adjacent ring seeds violate every disjunct of the claimed
invariant. -/
theorem C1_counterexample :
    c1Pre.isGrowing = true ∧ c1Pre.growthQueue ≠ [] ∧
    ∃ n1 ∈ c1Post.nodes, ∃ n2 ∈ c1Post.nodes,
      n1.position ≠ n2.position ∧
      SemanticField.edist n1.position n2.position < 15 ∧
      c1Post.semanticField.getSemanticDistance n1.char n2.char < 3 / 10 ∧
      SemanticField.edist n1.position n2.position < 25 := by
  obtain ⟨⟨m1, hm1, hp1, hc1⟩, ⟨m2, hm2, hp2, hc2⟩⟩ := c1Pre_two_seeds
  obtain ⟨n1, hn1, -, hpos1, hchar1⟩ := grow_keeps oracle0 c1Pre c1Init.2 m1 hm1
  obtain ⟨n2, hn2, -, hpos2, hchar2⟩ := grow_keeps oracle0 c1Pre c1Init.2 m2 hm2
  refine ⟨rfl, c1Pre_queue_ne, n1, hn1, n2, hn2, ?_, ?_, ?_, ?_⟩
  · rw [hpos1, hpos2, hp1, hp2]
    intro heq
    have hy := congrArg P2.y heq
    simp only at hy
    have := c1_sin_pos
    nlinarith [this]
  · rw [hpos1, hpos2, hp1, hp2]
    exact c1_edist_lt15
  · rw [hchar1, hchar2, hc1, hc2, gsd_of_graph c1Post.semanticField c1Post_graph]
    norm_num
  · rw [hpos1, hpos2, hp1, hp2]
    exact c1_edist_lt25

end OT
